/-
Verification of the modular-snake simulation core.

Shallow embedding of the Python sources in `src/components` (snake.py,
collision.py, food.py, enhanced_visuals.py) and `src/config.py`.

Conventions:
* Python floats are modelled as exact rationals (ℚ); grid cells and pixel
  coordinates are integers (ℤ).
* `math.sqrt(d2) < s` (circle overlap) is modelled by the equivalent exact
  condition `0 < s ∧ d2 < s^2`; sorting by Euclidean distance is modelled by
  sorting by squared distance (the orderings agree).
* Python `int(x)` truncates toward zero: modelled by `ratTrunc` using `Int.div`
  (T-division).  Python `//` on nonnegative ints is `Int.fdiv`.
* Mutable dictionaries become structures; in-place mutation of a food found in
  the food list is modelled by returning the index of the food and updating the
  list at that index.
* `random.randint` draws come from an explicit stream `rng : ℕ → ℕ × ℕ` with a
  cursor `rng_idx`, reduced into range with `%`.
* The unbounded `while` loop in `on_food_eaten` is modelled with explicit fuel
  (`replenishLoop`); running out of fuel returns the state unchanged, so a
  proof that every fuel value leaves the loop guard true exhibits divergence
  of the Python loop.
-/
import Mathlib

/- The library marks the four primitive rational operations irreducible, which
blocks kernel evaluation of concrete game states; restore the default
reducibility locally so that `decide` can run the model on concrete inputs. -/
attribute [local semireducible] Rat.add Rat.mul Rat.sub Rat.inv

namespace SnakeGame

/-! ## Geometry utilities (collision.py lines 10-43, utils.py) -/

/-- Squared Euclidean distance between two points (`calculate_distance` squared;
the source takes `math.sqrt`, which we avoid by comparing squares). -/
def distSq (p1 p2 : ℚ × ℚ) : ℚ :=
  (p2.1 - p1.1) * (p2.1 - p1.1) + (p2.2 - p1.2) * (p2.2 - p1.2)

/-- `check_circle_overlap` (collision.py 25-43): `distance < radius1 + radius2`
with `distance = sqrt(distSq) ≥ 0`; exactly equivalent to
`0 < r1 + r2 ∧ distSq < (r1+r2)^2`. -/
def check_circle_overlap (c1 : ℚ × ℚ) (r1 : ℚ) (c2 : ℚ × ℚ) (r2 : ℚ) : Bool :=
  decide (0 < r1 + r2) && decide (distSq c1 c2 < (r1 + r2) * (r1 + r2))

/-- Python `int(q)`: truncation toward zero. -/
def ratTrunc (q : ℚ) : ℤ :=
  Int.tdiv q.num q.den

/-! ## Configuration (config.py)

The configuration is consumed read-only by the core; we model the values the
specified components read.  `map_size_width`, `map_size_height`,
`grid_cell_size`, `map_offset_x/y` are derived properties in the source; here
they are plain fields (inputs to the algorithms). `speed_calculation` and
`food_count` are the callable configuration values. -/

structure Config where
  grid_cell_size : ℤ
  map_offset_x : ℤ
  map_offset_y : ℤ
  map_size_width : ℤ
  map_size_height : ℤ
  snake_head_hitbox_scale : ℚ
  mouse_hitbox_scale : ℚ
  initial_speed : ℚ
  speed_calculation : ℚ → ℤ → ℚ
  food_count : ℤ → ℤ
  enable_tongue_animation : Bool
  secret_mode_alpha : Bool
  secret_mode_omega : Bool

/-! ## Animation states (enhanced_visuals.py lines 24-52, 90-112) -/

inductive TonguePhase where
  | retracted
  | extending
  | holding
  | retracting
deriving DecidableEq

/-- `TongueState` (enhanced_visuals.py 24-29). -/
structure TongueState where
  phase : TonguePhase
  timer : ℚ
  extension_progress : ℚ
  cooldown_timer : ℚ
deriving DecidableEq

/-- `create_tongue_state` (enhanced_visuals.py 41-52). -/
def create_tongue_state : TongueState :=
  { phase := .retracted, timer := 0, extension_progress := 0, cooldown_timer := 0 }

/-- `BiteState` (enhanced_visuals.py 32-38 plus the `food_hidden` key added by
`trigger_bite_animation`). -/
structure BiteState where
  active : Bool
  progress : ℚ
  bite_position : ℚ × ℚ
  wave_count : ℕ
  duration : ℚ
  food_hidden : Bool
deriving DecidableEq

/-! ## Snake entity (snake.py) -/

/-- `Snake` (snake.py 13-24).  The purely visual fields (`tongue_extended`,
`visual_state`) are not read by any specified operation and are omitted.
`bite_state` is an optional key in the source, added by
`trigger_bite_animation`. -/
structure Snake where
  segments : List (ℤ × ℤ)
  direction : ℤ × ℤ
  next_direction : ℤ × ℤ
  speed : ℚ
  move_timer : ℚ
  interpolation : ℚ
  distance_moved : ℚ
  tongue_state : TongueState
  bite_state : Option BiteState
deriving DecidableEq

/-- `create_snake` (snake.py 27-70). -/
def create_snake (cfg : Config) (start_pos direction : ℤ × ℤ) : Snake :=
  let x := start_pos.1
  let y := start_pos.2
  let dx := direction.1
  let dy := direction.2
  { segments := [(x, y), (x - dx, y - dy), (x - 2*dx, y - 2*dy), (x - 3*dx, y - 3*dy)]
    direction := direction
    next_direction := direction
    speed := cfg.initial_speed
    move_timer := 0
    interpolation := 0
    distance_moved := 0
    tongue_state := create_tongue_state
    bite_state := none }

/-- `set_direction` (snake.py 73-91). -/
def set_direction (s : Snake) (new_direction : ℤ × ℤ) : Snake :=
  let current_dir := s.direction
  let is_rev : Bool :=
    decide (new_direction.1 = -current_dir.1) && decide (new_direction.2 = -current_dir.2)
  if !is_rev && decide (new_direction ≠ (0, 0)) then
    { s with next_direction := new_direction }
  else s

/-- `update_movement` (snake.py 94-125).  One `if`, not a loop: at most one
grid step per call. -/
def update_movement (s : Snake) (delta_time : ℚ) : Snake :=
  let mt := s.move_timer + delta_time
  let time_per_cell := 1 / s.speed
  let s1 :=
    if mt ≥ time_per_cell then
      let dir := s.next_direction
      let head := s.segments.headI
      let new_head := (head.1 + dir.1, head.2 + dir.2)
      { s with
        move_timer := mt - time_per_cell
        direction := dir
        segments := new_head :: s.segments.dropLast
        distance_moved := s.distance_moved + 1 }
    else
      { s with move_timer := mt }
  { s1 with interpolation := min (s1.move_timer / time_per_cell) 1 }

/-- `get_head_position` (snake.py 128-137): `segments[0]`. -/
def get_head_position (s : Snake) : ℤ × ℤ :=
  s.segments.headI

/-- `interpolate_position` (snake.py 140-157). -/
def interpolate_position (grid_pos next_grid_pos : ℤ × ℤ) (progress : ℚ) : ℚ × ℚ :=
  ((grid_pos.1 : ℚ) + ((next_grid_pos.1 : ℚ) - (grid_pos.1 : ℚ)) * progress,
   (grid_pos.2 : ℚ) + ((next_grid_pos.2 : ℚ) - (grid_pos.2 : ℚ)) * progress)

/-- `update_speed` (snake.py 160-173). -/
def update_speed (cfg : Config) (s : Snake) (score : ℤ) : Snake :=
  { s with speed := cfg.speed_calculation s.speed score }

/-- `add_segment` (snake.py 176-186): duplicates the tail cell.  The source
indexes `segments[-1]`, which presumes a nonempty list; the default value is
never used under that invariant. -/
def add_segment (s : Snake) : Snake :=
  { s with segments := s.segments ++ [s.segments.getLastD (0, 0)] }

/-! ## Food entity (food.py lines 10-31) -/

/-- `Food` (food.py 10-14).  `being_eaten` and `eaten_by` are optional keys in
the source read with defaults `False` / absent; modelled as a Bool and an
optional owner id. -/
structure Food where
  position : ℚ × ℚ
  velocity : ℚ × ℚ
  wander_timer : ℚ
  being_eaten : Bool
  eaten_by : Option ℕ
deriving DecidableEq

/-- `create_food` (food.py 17-31). -/
def create_food (position : ℤ × ℤ) : Food :=
  { position := ((position.1 : ℚ), (position.2 : ℚ))
    velocity := (0, 0)
    wander_timer := 0
    being_eaten := false
    eaten_by := none }

/-! ## Game state (shared mutable record) -/

/-- The aggregate game-state dictionary threaded through `check_collisions`,
`spawn_food_items` and `on_food_eaten`.  `snake_id` / `player_two_id` model the
Python `id(snake)` object identities used to tag food ownership.
`tournament_playing` models `tournament and tournament.get('phase') ==
'playing'`.  `rng`/`rng_idx` model the stream of `random.randint` draws. -/
structure GameState where
  snake : Option Snake
  player_two : Option Snake
  snake_id : ℕ
  player_two_id : ℕ
  food_items : List Food
  score : ℤ
  score_two : ℤ
  game_over : Bool
  player1_alive : Option Bool
  player2_alive : Option Bool
  tournament_playing : Bool
  rng : ℕ → ℕ × ℕ
  rng_idx : ℕ

/-! ## Hitboxes (collision.py lines 46-99) -/

/-- Pixel center of a grid-space point: `offset + pos*cell + cell // 2`
(the pattern used throughout collision.py and food.py). -/
def pixelCenter (cfg : Config) (pos : ℚ × ℚ) : ℚ × ℚ :=
  let c := cfg.grid_cell_size
  ((cfg.map_offset_x : ℚ) + pos.1 * (c : ℚ) + ((Int.fdiv c 2 : ℤ) : ℚ),
   (cfg.map_offset_y : ℚ) + pos.2 * (c : ℚ) + ((Int.fdiv c 2 : ℤ) : ℚ))

/-- `get_snake_head_hitbox` (collision.py 46-75). -/
def get_snake_head_hitbox (cfg : Config) (s : Snake) : (ℚ × ℚ) × ℚ :=
  let head_grid := s.segments.headI
  let next_head := (head_grid.1 + s.direction.1, head_grid.2 + s.direction.2)
  let interp_grid := interpolate_position head_grid next_head s.interpolation
  let base_radius : ℤ := Int.fdiv cfg.grid_cell_size 2
  (pixelCenter cfg interp_grid, (base_radius : ℚ) * cfg.snake_head_hitbox_scale)

/-- `get_mouse_hitbox` (collision.py 78-99). -/
def get_mouse_hitbox (cfg : Config) (food_item : Food) : (ℚ × ℚ) × ℚ :=
  let base_radius : ℤ := Int.fdiv cfg.grid_cell_size 2
  (pixelCenter cfg food_item.position, (base_radius : ℚ) * cfg.mouse_hitbox_scale)

/-! ## Collision checks (collision.py lines 102-197) -/

/-- `check_wall_collision` (collision.py 102-125). -/
def check_wall_collision (cfg : Config) (s : Snake) : Bool :=
  let head := get_head_position s
  decide (head.1 < 0) || decide (head.1 ≥ cfg.map_size_width) ||
    decide (head.2 < 0) || decide (head.2 ≥ cfg.map_size_height)

/-- `check_self_collision` (collision.py 128-145): head cell membership in
`segments[1:]`. -/
def check_self_collision (s : Snake) : Bool :=
  decide (get_head_position s ∈ s.segments.tail)

/-- Does the snake-head hitbox overlap this food's hitbox?  (the loop body of
`check_food_collision`). -/
def overlapsHead (cfg : Config) (s : Snake) (f : Food) : Bool :=
  let hb := get_snake_head_hitbox cfg s
  let mb := get_mouse_hitbox cfg f
  check_circle_overlap hb.1 hb.2 mb.1 mb.2

/-- Index of the first food in list order whose hitbox overlaps the head
hitbox.  `check_food_collision` (collision.py 148-170) returns the food object
itself; since that object is an alias into the food list we return its index.
Note the scan does NOT consult `being_eaten`. -/
def check_food_collision (cfg : Config) (s : Snake) : List Food → Option ℕ
  | [] => none
  | f :: fs =>
    if overlapsHead cfg s f then some 0
    else (check_food_collision cfg s fs).map (· + 1)

/-- `check_player_collision` (collision.py 173-197). -/
def check_player_collision (s1 s2 : Snake) : Bool :=
  decide (get_head_position s1 ∈ s2.segments) || decide (get_head_position s2 ∈ s1.segments)

/-! ## Bite and tongue state machines (enhanced_visuals.py 90-112, 1282-1396) -/

/-- `trigger_bite_animation` (enhanced_visuals.py 90-112). -/
def trigger_bite_animation (cfg : Config) (s : Snake) (bite_pos : ℚ × ℚ) : Snake :=
  let base_duration : ℚ := 1/2
  let speed_factor := s.speed / cfg.initial_speed
  let duration := base_duration / max speed_factor 1
  let bs : BiteState :=
    { active := true
      progress := 0
      bite_position := bite_pos
      wave_count := 5
      duration := duration
      food_hidden := false }
  { s with bite_state := some bs }

/-- Foods kept by the bite removal sweep: everything except foods marked
`being_eaten` whose `eaten_by` equals this snake's id. -/
def biteKeeps (snakeId : ℕ) (f : Food) : Bool :=
  !(f.being_eaten && decide (f.eaten_by = some snakeId))

/-- `update_bite_animation` (enhanced_visuals.py 1282-1311).  Acts on the snake
and the food list of the state; `snakeId` is `id(snake)`. -/
def update_bite_animation (snakeId : ℕ) (s : Snake) (delta_time : ℚ)
    (food_items : List Food) : Snake × List Food :=
  match s.bite_state with
  | none => (s, food_items)
  | some bs =>
    if !bs.active then (s, food_items)
    else
      let p := bs.progress + delta_time / bs.duration
      let hide := decide (p ≥ 2/5) && !bs.food_hidden
      let bs1 : BiteState :=
        if hide then { bs with progress := p, food_hidden := true }
        else { bs with progress := p }
      let foods1 := if hide then food_items.filter (biteKeeps snakeId) else food_items
      let bs2 : BiteState :=
        if bs1.progress ≥ 1 then { bs1 with active := false, progress := 0 } else bs1
      ({ s with bite_state := some bs2 }, foods1)

/-- The food-proximity interrupt condition of `update_tongue_animation`
(enhanced_visuals.py 1345-1361): some unconsumed food is within distance 3.0 of
the head grid cell (the source computes the minimum distance and compares with
3.0; equivalently some squared distance is ≤ 9), and the segments list is
nonempty. -/
def isAnticipating (s : Snake) (food_items : List Food) : Bool :=
  !s.segments.isEmpty &&
    food_items.any (fun f =>
      !f.being_eaten &&
        decide (distSq (((s.segments.headI).1 : ℚ), ((s.segments.headI).2 : ℚ)) f.position ≤ 9))

/-- The interrupt block of `update_tongue_animation` (both for an active bite
and for anticipation): reset only if the phase is not already `retracted`. -/
def tongueInterrupt (ts : TongueState) : TongueState :=
  if ts.phase ≠ .retracted then
    { ts with phase := .retracted, extension_progress := 0, cooldown_timer := 3 }
  else ts

/-- `update_tongue_animation` (enhanced_visuals.py 1314-1396).  `state?` is the
optional game state (`None`/falsy means no anticipation check); when present we
only need its food list. -/
def update_tongue_animation (cfg : Config) (s : Snake) (delta_time : ℚ)
    (state? : Option (List Food)) : Snake :=
  if !cfg.enable_tongue_animation then s
  else
    let extension_duration : ℚ := 2/5
    let hold_duration : ℚ := 4/5
    let retraction_duration : ℚ := 2/5
    let cooldown_duration : ℚ := 3
    let ts := s.tongue_state
    let biteActive : Bool :=
      match s.bite_state with
      | some bs => bs.active
      | none => false
    if biteActive then { s with tongue_state := tongueInterrupt ts }
    else
      let anticipating :=
        match state? with
        | some foods => isAnticipating s foods
        | none => false
      if anticipating then { s with tongue_state := tongueInterrupt ts }
      else if ts.phase = .retracted then
        let ts1 := { ts with cooldown_timer := ts.cooldown_timer - delta_time }
        if ts1.cooldown_timer ≤ 0 then
          { s with tongue_state := { ts1 with phase := .extending, timer := 0 } }
        else { s with tongue_state := ts1 }
      else
        let ts1 := { ts with timer := ts.timer + delta_time }
        let ts2 :=
          if ts1.phase = .extending then
            let ts1 := { ts1 with extension_progress := min (ts1.timer / extension_duration) 1 }
            if ts1.timer ≥ extension_duration then
              { ts1 with phase := .holding, timer := 0 }
            else ts1
          else if ts1.phase = .holding then
            let ts1 := { ts1 with extension_progress := 1 }
            if ts1.timer ≥ hold_duration then
              { ts1 with phase := .retracting, timer := 0 }
            else ts1
          else if ts1.phase = .retracting then
            let ts1 := { ts1 with extension_progress := 1 - min (ts1.timer / retraction_duration) 1 }
            if ts1.timer ≥ retraction_duration then
              { ts1 with phase := .retracted, timer := 0, extension_progress := 0,
                         cooldown_timer := cooldown_duration }
            else ts1
          else ts1
        { s with tongue_state := ts2 }

/-! ## Food stacking detection and resolution (food.py 304-448) -/

/-- Truncated integer grid cell of a food position (`int(position[0]),
int(position[1])`). -/
def foodCell (f : Food) : ℤ × ℤ :=
  (ratTrunc f.position.1, ratTrunc f.position.2)

/-- One step of building the position map of `detect_food_collisions`:
append index `idx` to the entry for `pos`, or create the entry.  Models a
Python dict in insertion order. -/
def addToPosMap (m : List ((ℤ × ℤ) × List ℕ)) (pos : ℤ × ℤ) (idx : ℕ) :
    List ((ℤ × ℤ) × List ℕ) :=
  if m.any (fun e => e.1 = pos) then
    m.map (fun e => if e.1 = pos then (e.1, e.2 ++ [idx]) else e)
  else m ++ [(pos, [idx])]

/-- `detect_food_collisions` (food.py 304-328): group food indices by truncated
grid cell, keep the groups of size > 1 (in dict insertion order). -/
def detect_food_collisions (food_items : List Food) : List ((ℤ × ℤ) × List ℕ) :=
  let position_map := food_items.enum.foldl
    (fun m p => addToPosMap m (foodCell p.2) p.1) []
  position_map.filter (fun e => 1 < e.2.length)

/-- The occupied-cell set built at the top of `find_adjacent_empty_cell`
(food.py 356-369): snake segments, player-two segments, truncated food cells.
The Python set is modelled as a list queried by membership. -/
def occupiedCells (st : GameState) : List (ℤ × ℤ) :=
  (match st.snake with
   | some s => s.segments
   | none => []) ++
  (match st.player_two with
   | some s => s.segments
   | none => []) ++
  st.food_items.map foodCell

/-- `range(a, b+1)` over ℤ. -/
def intRange (a b : ℤ) : List ℤ :=
  (List.range (b + 1 - a).toNat).map (fun (k : ℕ) => a + (k : ℤ))

/-- The candidate list built for one radius of `find_adjacent_empty_cell`
(food.py 372-399): cells at exact Manhattan distance `radius`, in bounds and
unoccupied, paired with the (squared) distance to the snake head when the
away-from-snake preference applies. -/
def candidatesAt (cfg : Config) (position : ℤ × ℤ) (occ : List (ℤ × ℤ))
    (snake_head : Option (ℤ × ℤ)) (prefer_away_from_snake : Bool) (radius : ℕ) :
    List (ℤ × ℤ × ℚ) :=
  (intRange (-(radius : ℤ)) radius).flatMap (fun dx =>
    (intRange (-(radius : ℤ)) radius).filterMap (fun dy =>
      if dx.natAbs + dy.natAbs ≠ radius then none
      else
        let check_x := position.1 + dx
        let check_y := position.2 + dy
        if check_x < 0 ∨ check_x ≥ cfg.map_size_width ∨
            check_y < 0 ∨ check_y ≥ cfg.map_size_height then none
        else if (check_x, check_y) ∈ occ then none
        else
          match prefer_away_from_snake, snake_head with
          | true, some hd =>
            some (check_x, check_y,
              distSq ((check_x : ℚ), (check_y : ℚ)) ((hd.1 : ℚ), (hd.2 : ℚ)))
          | _, _ => some (check_x, check_y, 0)))

/-- `find_adjacent_empty_cell` (food.py 331-408).  Radii 1..max_radius are
scanned in order; the first radius with candidates wins.  With the
away-from-snake preference the candidates are stably sorted by descending
distance (the source sorts by Euclidean distance; sorting by squared distance
yields the same order). -/
def find_adjacent_empty_cell (cfg : Config) (position : ℤ × ℤ) (st : GameState)
    (prefer_away_from_snake : Bool := true) (max_radius : ℕ := 3) :
    Option (ℤ × ℤ) :=
  let snake_head : Option (ℤ × ℤ) := st.snake.map (fun s => s.segments.headI)
  let occ := occupiedCells st
  ((List.range max_radius).map (· + 1)).findSome? (fun radius =>
    let candidates := candidatesAt cfg position occ snake_head prefer_away_from_snake radius
    if candidates.isEmpty then none
    else
      let sorted :=
        if prefer_away_from_snake && snake_head.isSome then
          candidates.mergeSort (fun a b => decide (b.2.2 ≤ a.2.2))
        else candidates
      match sorted with
      | [] => none
      | c :: _ => some (c.1, c.2.1))

/-- Update the position of the food at index `idx` (the in-place mutation
`food_item['position'] = (float(new_pos[0]), float(new_pos[1]))`). -/
def setFoodPos (foods : List Food) (idx : ℕ) (new_pos : ℤ × ℤ) : List Food :=
  match foods[idx]? with
  | some f => foods.set idx { f with position := ((new_pos.1 : ℚ), (new_pos.2 : ℚ)) }
  | none => foods

/-- `resolve_food_stacking` (food.py 411-448): for each stacked group keep the
first index in place and relocate each later index to
`find_adjacent_empty_cell` of the group's cell, evaluated against the
currently-updated state; a `None` result leaves the food where it is. -/
def resolve_food_stacking (cfg : Config) (st : GameState)
    (collisions : List ((ℤ × ℤ) × List ℕ)) : GameState :=
  collisions.foldl (fun st e =>
    (e.2.drop 1).foldl (fun st idx =>
      match find_adjacent_empty_cell cfg e.1 st true 3 with
      | some new_pos => { st with food_items := setFoodPos st.food_items idx new_pos }
      | none => st) st) st

/-! ## Food spawning (food.py 34-188) -/

/-- `is_valid_spawn_position` (food.py 34-108): the spawn hitbox must not
overlap the snake head hitbox, any snake body-cell circle (radius
`cell_size // 2 * 0.75`), the player-two head and body circles, or any
existing food hitbox. -/
def is_valid_spawn_position (cfg : Config) (pos : ℚ × ℚ) (st : GameState) : Bool :=
  let base_radius : ℤ := Int.fdiv cfg.grid_cell_size 2
  let mouse_radius : ℚ := (base_radius : ℚ) * cfg.mouse_hitbox_scale
  let spawn_center := pixelCenter cfg pos
  let segOk : List (ℤ × ℤ) → Bool := fun segs =>
    segs.all (fun seg =>
      let seg_center := pixelCenter cfg ((seg.1 : ℚ), (seg.2 : ℚ))
      !check_circle_overlap spawn_center mouse_radius seg_center ((base_radius : ℚ) * (3/4)))
  let snakeOk : Bool :=
    match st.snake with
    | some s =>
      let hb := get_snake_head_hitbox cfg s
      !check_circle_overlap spawn_center mouse_radius hb.1 hb.2 && segOk s.segments
    | none => true
  let playerTwoOk : Bool :=
    match st.player_two with
    | some s =>
      let head_grid := s.segments.headI
      let head_center := pixelCenter cfg ((head_grid.1 : ℚ), (head_grid.2 : ℚ))
      let head_radius : ℚ := (base_radius : ℚ) * cfg.snake_head_hitbox_scale
      !check_circle_overlap spawn_center mouse_radius head_center head_radius &&
        segOk s.segments
    | none => true
  let foodsOk : Bool :=
    st.food_items.all (fun f =>
      let mb := get_mouse_hitbox cfg f
      !check_circle_overlap spawn_center mouse_radius mb.1 mb.2)
  snakeOk && playerTwoOk && foodsOk

/-- The retry loop of `spawn_food_items` (food.py 145-165), structurally
recursive on the remaining attempts.  Each attempt consumes one `randint` pair
from the entropy stream; the first valid position is appended as a new food and
post-spawn stacking resolution runs; exhausting the attempts skips the spawn. -/
def spawnAttempts (cfg : Config) : ℕ → GameState → GameState
  | 0, st => st
  | n + 1, st =>
    let draw := st.rng st.rng_idx
    let st1 := { st with rng_idx := st.rng_idx + 1 }
    let x : ℤ := (draw.1 : ℤ) % cfg.map_size_width
    let y : ℤ := (draw.2 : ℤ) % cfg.map_size_height
    let pos : ℚ × ℚ := ((x : ℚ), (y : ℚ))
    if is_valid_spawn_position cfg pos st1 then
      let st2 := { st1 with food_items := st1.food_items ++ [create_food (x, y)] }
      let collisions := detect_food_collisions st2.food_items
      if collisions.isEmpty then st2 else resolve_food_stacking cfg st2 collisions
    else spawnAttempts cfg n st1

/-- `spawn_food_items` (food.py 111-169): if the cell budget
(`total − occupied`) is exhausted the spawn is skipped outright, otherwise up
to 100 random placements are attempted. -/
def spawn_food_items (cfg : Config) (st : GameState) : GameState :=
  let total_cells := cfg.map_size_width * cfg.map_size_height
  let occupied_cells : ℤ :=
    (match st.snake with
     | some s => (s.segments.length : ℤ)
     | none => 0) +
    (match st.player_two with
     | some s => (s.segments.length : ℤ)
     | none => 0) +
    (st.food_items.length : ℤ)
  let available_cells := total_cells - occupied_cells
  if available_cells ≤ 0 then st
  else spawnAttempts cfg 100 st

/-- `get_required_food_count` (food.py 172-188). -/
def get_required_food_count (cfg : Config) (score : ℤ) : ℤ :=
  max 1 (cfg.food_count score)

/-- The `while len(food_items) < required_count` loop of `on_food_eaten`
(food.py 577-578), with explicit fuel.  The Python loop has no fuel: if a
spawn call fails to add food the loop body repeats forever. -/
def replenishLoop (cfg : Config) (required_count : ℤ) : ℕ → GameState → GameState
  | 0, st => st
  | n + 1, st =>
    if (st.food_items.length : ℤ) < required_count then
      replenishLoop cfg required_count n (spawn_food_items cfg st)
    else st

/-- `on_food_eaten` (food.py 562-583): increment the score, then replenish the
food set up to the score-derived required count. -/
def on_food_eaten (cfg : Config) (fuel : ℕ) (st : GameState) : GameState :=
  let st1 := { st with score := st.score + 1 }
  let required_count := get_required_food_count cfg st1.score
  replenishLoop cfg required_count fuel st1

/-! ## The collision engine tick (collision.py 200-326) -/

/-- `check_collisions` (collision.py 200-326).  Returns the updated game
state.  `fuel` bounds the iterations of the food-replenishment `while` loop
inside `on_food_eaten` (the Python loop is unbounded; see `replenishLoop`).

The source mutates the snake, the eaten food (an alias into the food list) and
the state record in place; here each mutation produces the next value, in the
order the statements execute. -/
def check_collisions (cfg : Config) (fuel : ℕ) (st : GameState) : GameState :=
  if st.game_over then st
  else
    match st.snake with
    | none => st
    | some snake =>
      let player1_alive := !check_wall_collision cfg snake && !check_self_collision snake
      -- player 1 food consumption (collision.py 226-251)
      let stA : GameState × Snake :=
        match check_food_collision cfg snake st.food_items with
        | some i =>
          match st.food_items[i]? with
          | some eaten_food =>
            if !eaten_food.being_eaten then
              let food_pixel := pixelCenter cfg eaten_food.position
              let foods1 := st.food_items.set i
                { eaten_food with being_eaten := true, eaten_by := some st.snake_id }
              let snake1 := add_segment (trigger_bite_animation cfg snake food_pixel)
              let st1 := { st with food_items := foods1, snake := some snake1 }
              let st2 := on_food_eaten cfg fuel st1
              let snake2 := update_speed cfg snake1 st2.score
              ({ st2 with snake := some snake2 }, snake2)
            else (st, snake)
          | none => (st, snake)
        | none => (st, snake)
      let st1 := stA.1
      let snakeCur := stA.2
      let is_multiplayer := cfg.secret_mode_alpha ||
        (cfg.secret_mode_omega && st.tournament_playing)
      -- multiplayer block (collision.py 256-311)
      let res : GameState × Bool × Bool :=
        if is_multiplayer then
          match st1.player_two with
          | some player_two =>
            let p2a := !check_wall_collision cfg player_two && !check_self_collision player_two
            let stB : GameState × Snake :=
              match check_food_collision cfg player_two st1.food_items with
              | some j =>
                match st1.food_items[j]? with
                | some eaten_food =>
                  if !eaten_food.being_eaten then
                    let food_pixel := pixelCenter cfg eaten_food.position
                    let foods1 := st1.food_items.set j
                      { eaten_food with being_eaten := true, eaten_by := some st1.player_two_id }
                    let p2b := add_segment (trigger_bite_animation cfg player_two food_pixel)
                    let st2 := { st1 with
                      food_items := foods1
                      player_two := some p2b
                      score_two := st1.score_two + 1 }
                    let st3 := on_food_eaten cfg fuel st2
                    let p2c := update_speed cfg p2b st3.score_two
                    ({ st3 with player_two := some p2c }, p2c)
                  else (st1, player_two)
                | none => (st1, player_two)
              | none => (st1, player_two)
            let st2 := stB.1
            let p2Cur := stB.2
            let mutualHit := check_player_collision snakeCur p2Cur
            let c12 := mutualHit && decide (get_head_position snakeCur ∈ p2Cur.segments)
            let c21 := mutualHit && decide (get_head_position p2Cur ∈ snakeCur.segments)
            (st2, player1_alive && !c12, p2a && !c21)
          | none => (st1, player1_alive, true)
        else (st1, player1_alive, true)
      let stF := res.1
      let p1 := res.2.1
      let p2 := res.2.2
      -- game-over policy (collision.py 313-325)
      if is_multiplayer then
        if !p1 || !p2 then
          { stF with game_over := true, player1_alive := some p1, player2_alive := some p2 }
        else stF
      else if !p1 then { stF with game_over := true }
      else stF

/-! ## Concrete sample values used by witnesses and counterexamples -/

/-- A concrete configuration: 10×10 map, 20-pixel cells, no offsets, both
hitbox scales 1, initial speed 10, default additive speed increment (the
default `speed_calculation` adds `speed_factor = 1.5`), constant food count 1,
single-player modes. -/
def cfgBasic : Config where
  grid_cell_size := 20
  map_offset_x := 0
  map_offset_y := 0
  map_size_width := 10
  map_size_height := 10
  snake_head_hitbox_scale := 1
  mouse_hitbox_scale := 1
  initial_speed := 10
  speed_calculation := fun sp _ => sp + 3/2
  food_count := fun _ => 1
  enable_tongue_animation := true
  secret_mode_alpha := false
  secret_mode_omega := false

/-- A food item sitting at a given continuous position (as spawned, then
moved). -/
def foodAt (p : ℚ × ℚ) : Food :=
  { position := p, velocity := (0, 0), wander_timer := 0
    being_eaten := false, eaten_by := none }

/-- A baseline single-player game state around a given snake and food list. -/
def baseState (s? : Option Snake) (foods : List Food) : GameState where
  snake := s?
  player_two := none
  snake_id := 7
  player_two_id := 8
  food_items := foods
  score := 0
  score_two := 0
  game_over := false
  player1_alive := none
  player2_alive := none
  tournament_playing := false
  rng := fun _ => (0, 0)
  rng_idx := 0

/-! ## Claim theorems -/

/-- Claim C9: `check_wall_collision` returns true exactly when the discrete
head cell (x, y) has x < 0 or x ≥ mapWidth or y < 0 or y ≥ mapHeight; on the
10×10 map a head at (10,5) collides and a head at (9,5) does not. -/
theorem check_wall_collision_iff :
    (∀ (cfg : Config) (s : Snake),
      check_wall_collision cfg s = true ↔
        ((get_head_position s).1 < 0 ∨ (get_head_position s).1 ≥ cfg.map_size_width ∨
         (get_head_position s).2 < 0 ∨ (get_head_position s).2 ≥ cfg.map_size_height)) ∧
    check_wall_collision cfgBasic (create_snake cfgBasic (10, 5) (1, 0)) = true ∧
    check_wall_collision cfgBasic (create_snake cfgBasic (9, 5) (1, 0)) = false := by
  refine ⟨fun cfg s => ?_, by decide, by decide⟩
  simp [check_wall_collision, or_assoc]

/-- Claim C8: `set_direction` leaves `next_direction` unchanged exactly when
the request is the componentwise negation of the current direction or the zero
vector, and otherwise stores the request; no other snake field is touched
(in particular the example: facing (1,0), requesting (-1,0) is ignored). -/
theorem set_direction_spec :
    (∀ (s : Snake) (nd : ℤ × ℤ),
      set_direction s nd =
        { s with next_direction :=
            if (nd.1 = -s.direction.1 ∧ nd.2 = -s.direction.2) ∨ nd = (0, 0) then
              s.next_direction
            else nd }) ∧
    set_direction (create_snake cfgBasic (5, 5) (1, 0)) (-1, 0) =
      create_snake cfgBasic (5, 5) (1, 0) := by
  constructor
  · intro s nd
    unfold set_direction
    by_cases h1 : nd.1 = -s.direction.1 <;> by_cases h2 : nd.2 = -s.direction.2 <;>
      by_cases h0 : nd = 0 <;>
      simp [h1, h2, h0, Prod.mk_zero_zero]
  · decide

/-- Claim C10: when the game-over flag is already set, `check_collisions`
returns the state unchanged. -/
theorem check_collisions_game_over_noop (cfg : Config) (fuel : ℕ) (st : GameState)
    (h : st.game_over = true) : check_collisions cfg fuel st = st := by
  unfold check_collisions
  rw [h]
  simp

/-- Witness for C10: a concrete finished game is left untouched. -/
theorem check_collisions_game_over_noop_witness :
    check_collisions cfgBasic 5
        { baseState (some (create_snake cfgBasic (5, 5) (1, 0))) [foodAt (2, 2)] with
          game_over := true } =
      { baseState (some (create_snake cfgBasic (5, 5) (1, 0))) [foodAt (2, 2)] with
        game_over := true } :=
  check_collisions_game_over_noop cfgBasic 5 _ rfl

/-- A snake with a prescribed tongue state and bite state, otherwise as
created at (5,5) facing right. -/
def snakeWithTongue (ts : TongueState) (bs? : Option BiteState) : Snake :=
  { create_snake cfgBasic (5, 5) (1, 0) with tongue_state := ts, bite_state := bs? }

/-- An active bite state at its start. -/
def biteActiveStart : BiteState :=
  { active := true, progress := 0, bite_position := (110, 110)
    wave_count := 5, duration := 1/2, food_hidden := false }

/-- A tongue already retracted with 1.5 s of cooldown remaining. -/
def tongueRetractedHalf : TongueState :=
  { phase := .retracted, timer := 0, extension_progress := 0, cooldown_timer := 3/2 }

/-- A tongue in the middle of extending. -/
def tongueExtendingMid : TongueState :=
  { phase := .extending, timer := 1/5, extension_progress := 1/2, cooldown_timer := 0 }

/-- Counterexample to claim C4 as stated: a snake whose tongue is already
`retracted` with a partially elapsed cooldown (1.5 s) and an active bite.
The claim demands `cooldown_timer = 3.0` after the call; the code leaves the
tongue state untouched because the phase is already `retracted`. -/
theorem tongue_interrupt_counterexample :
    cfgBasic.enable_tongue_animation = true ∧
    ((snakeWithTongue tongueRetractedHalf (some biteActiveStart)).bite_state.map
        BiteState.active = some true) ∧
    (update_tongue_animation cfgBasic
        (snakeWithTongue tongueRetractedHalf (some biteActiveStart))
        (1/60) (some [])).tongue_state.cooldown_timer ≠ 3 := by
  decide

/-- Claim C4 (amended): with the tongue animation enabled, an active bite or
food proximity (some unconsumed food within 3 cells of the head) forces the
tongue phase to `retracted`; the extension progress is zeroed and the cooldown
reset to 3.0 s only when the phase was not already `retracted` — when it was,
the snake is left entirely unchanged (in particular the cooldown keeps its
current value rather than being reset). -/
theorem update_tongue_interrupt (cfg : Config) (s : Snake) (dt : ℚ)
    (state? : Option (List Food))
    (hen : cfg.enable_tongue_animation = true)
    (hint : (s.bite_state.map BiteState.active = some true) ∨
      (∃ foods, state? = some foods ∧ isAnticipating s foods = true)) :
    (update_tongue_animation cfg s dt state?).tongue_state.phase = .retracted ∧
    (s.tongue_state.phase ≠ .retracted →
      (update_tongue_animation cfg s dt state?).tongue_state.extension_progress = 0 ∧
      (update_tongue_animation cfg s dt state?).tongue_state.cooldown_timer = 3 ∧
      (update_tongue_animation cfg s dt state?).tongue_state.timer = s.tongue_state.timer) ∧
    (s.tongue_state.phase = .retracted → update_tongue_animation cfg s dt state? = s) := by
  have hres : update_tongue_animation cfg s dt state? = { s with tongue_state := tongueInterrupt s.tongue_state } := by
    unfold update_tongue_animation
    rw [hen]
    rcases hint with hb | ⟨foods, hst, hant⟩
    · rcases hbs : s.bite_state with _ | bs
      · rw [hbs] at hb; simp at hb
      · rw [hbs] at hb
        simp at hb
        simp [hb]
    · rcases hbs : s.bite_state with _ | bs
      · simp [hst, hant]
      · rcases hact : bs.active
        · simp [hst, hant, hact]
        · simp [hact]
  rw [hres]
  unfold tongueInterrupt
  by_cases hph : s.tongue_state.phase = .retracted
  · simp [hph]
  · simp [hph]

/-- Witness for C4 (amended): a tongue mid-extension is yanked back to
`retracted` with progress 0 and cooldown 3 by an active bite. -/
theorem update_tongue_interrupt_witness :
    (update_tongue_animation cfgBasic
        (snakeWithTongue tongueExtendingMid (some biteActiveStart))
        (1/60) none).tongue_state.phase = .retracted ∧
    (update_tongue_animation cfgBasic
        (snakeWithTongue tongueExtendingMid (some biteActiveStart))
        (1/60) none).tongue_state.cooldown_timer = 3 := by
  have h := update_tongue_interrupt cfgBasic
    (snakeWithTongue tongueExtendingMid (some biteActiveStart)) (1/60) none rfl (Or.inl rfl)
  exact ⟨h.1, (h.2.1 (by decide)).2.1⟩

/-! ### C1: frame-rate dependence of movement -/

/-- Apply `update_movement` once per dt of the sequence. -/
def runMovement (s : Snake) (dts : List ℚ) : Snake :=
  dts.foldl update_movement s

/-- Single-call analysis of `update_movement` under the timer invariant
`0 ≤ move_timer < 1/speed` and a per-call dt of at most one cell time. -/
lemma update_movement_step (s : Snake) (d : ℚ) (_hsp : 0 < s.speed)
    (hmt0 : 0 ≤ s.move_timer) (hmt1 : s.move_timer < 1 / s.speed)
    (hd0 : 0 ≤ d) (hd1 : d ≤ 1 / s.speed) :
    (update_movement s d).speed = s.speed ∧
    (update_movement s d).next_direction = s.next_direction ∧
    0 ≤ (update_movement s d).move_timer ∧
    (update_movement s d).move_timer < 1 / s.speed ∧
    ((update_movement s d).move_timer = s.move_timer + d ∧
       (update_movement s d).distance_moved = s.distance_moved ∧
       (update_movement s d).segments.headI = s.segments.headI ∨
     (update_movement s d).move_timer = s.move_timer + d - 1 / s.speed ∧
       (update_movement s d).distance_moved = s.distance_moved + 1 ∧
       (update_movement s d).segments.headI =
         (s.segments.headI.1 + s.next_direction.1,
          s.segments.headI.2 + s.next_direction.2)) := by
  unfold update_movement
  by_cases hstep : s.move_timer + d ≥ 1 / s.speed
  · simp only [hstep, if_pos]
    refine ⟨?_, ?_, ?_, ?_, Or.inr ⟨?_, ?_, ?_⟩⟩ <;>
      first
      | trivial
      | linarith
  · simp only [hstep, if_neg, not_false_iff]
    push_neg at hstep
    refine ⟨?_, ?_, ?_, ?_, Or.inl ⟨?_, ?_, ?_⟩⟩ <;>
      first
      | trivial
      | linarith

/-- Iterated-movement invariant: over any dt sequence with each dt in
`[0, 1/speed]`, some number `k` of grid steps happens; the timer carries the
exact remainder, and the head has advanced `k` times the queued direction. -/
lemma runMovement_spec : ∀ (dts : List ℚ) (s : Snake), 0 < s.speed →
    0 ≤ s.move_timer → s.move_timer < 1 / s.speed →
    (∀ d ∈ dts, 0 ≤ d ∧ d ≤ 1 / s.speed) →
    ∃ k : ℕ,
      (runMovement s dts).speed = s.speed ∧
      (runMovement s dts).next_direction = s.next_direction ∧
      (runMovement s dts).distance_moved = s.distance_moved + (k : ℚ) ∧
      (runMovement s dts).move_timer = s.move_timer + dts.sum - (k : ℚ) * (1 / s.speed) ∧
      0 ≤ (runMovement s dts).move_timer ∧
      (runMovement s dts).move_timer < 1 / s.speed ∧
      (runMovement s dts).segments.headI =
        (s.segments.headI.1 + (k : ℤ) * s.next_direction.1,
         s.segments.headI.2 + (k : ℤ) * s.next_direction.2)
  | [], s, hsp, hmt0, hmt1, _ => by
    refine ⟨0, rfl, rfl, by simp [runMovement], by simp [runMovement], by
      simpa [runMovement] using hmt0, by simpa [runMovement] using hmt1, by
      simp [runMovement]⟩
  | d :: dts, s, hsp, hmt0, hmt1, hd => by
    have hstep := update_movement_step s d hsp hmt0 hmt1 (hd d (by simp)).1 (hd d (by simp)).2
    set s1 := update_movement s d with hs1
    obtain ⟨hsp1, hnd1, hmt1a, hmt1b, hcase⟩ := hstep
    have hrest : ∀ x ∈ dts, 0 ≤ x ∧ x ≤ 1 / s1.speed := by
      intro x hx
      rw [hsp1]
      exact hd x (by simp [hx])
    obtain ⟨k, ih1, ih2, ih3, ih4, ih5, ih6, ih7⟩ :=
      runMovement_spec dts s1 (by rw [hsp1]; exact hsp) hmt1a (by rw [hsp1]; exact hmt1b)
        hrest
    have hrun : runMovement s (d :: dts) = runMovement s1 dts := rfl
    rcases hcase with ⟨hm, hdist, hhead⟩ | ⟨hm, hdist, hhead⟩
    · refine ⟨k, ?_, ?_, ?_, ?_, ?_, ?_, ?_⟩
      · rw [hrun, ih1, hsp1]
      · rw [hrun, ih2, hnd1]
      · rw [hrun, ih3, hdist]
      · rw [hrun, ih4, hm, hsp1, List.sum_cons]
        ring
      · rw [hrun]
        exact ih5
      · rw [hrun, show 1 / s.speed = 1 / s1.speed by rw [hsp1]]
        exact ih6
      · rw [hrun, ih7, hhead, hnd1]
    · refine ⟨k + 1, ?_, ?_, ?_, ?_, ?_, ?_, ?_⟩
      · rw [hrun, ih1, hsp1]
      · rw [hrun, ih2, hnd1]
      · rw [hrun, ih3, hdist]
        push_cast
        ring
      · rw [hrun, ih4, hm, hsp1, List.sum_cons]
        push_cast
        ring
      · rw [hrun]
        exact ih5
      · rw [hrun, show 1 / s.speed = 1 / s1.speed by rw [hsp1]]
        exact ih6
      · rw [hrun, ih7, hhead, hnd1]
        simp only [Prod.mk.injEq]
        constructor <;> push_cast <;> ring

/-- The step count is determined by the total accumulated time alone. -/
lemma stepsUnique {tpc T : ℚ} (htpc : 0 < tpc) {a b : ℕ}
    (ha1 : 0 ≤ T - (a : ℚ) * tpc) (ha2 : T - (a : ℚ) * tpc < tpc)
    (hb1 : 0 ≤ T - (b : ℚ) * tpc) (hb2 : T - (b : ℚ) * tpc < tpc) : a = b := by
  by_contra hne
  rcases Nat.lt_or_ge a b with h | h
  · have hcast : ((a : ℚ) + 1) ≤ (b : ℚ) := by exact_mod_cast Nat.succ_le_of_lt h
    nlinarith
  · have hlt : b < a := Nat.lt_of_le_of_ne h (fun hab => hne hab.symm)
    have hcast : ((b : ℚ) + 1) ≤ (a : ℚ) := by exact_mod_cast Nat.succ_le_of_lt hlt
    nlinarith

/-- Claim C1 (amended): provided every dt of both sequences lies in
`[0, 1/speed]` (at most one cell time per call — the code performs at most one
grid step per call) and the snake starts with `move_timer` in `[0, 1/speed)`
(as created), any two dt sequences with equal total sum produce the same final
head cell and the same step count. -/
theorem frame_rate_independence (s : Snake) (d1 d2 : List ℚ)
    (hsp : 0 < s.speed) (hmt0 : 0 ≤ s.move_timer) (hmt1 : s.move_timer < 1 / s.speed)
    (h1 : ∀ d ∈ d1, 0 ≤ d ∧ d ≤ 1 / s.speed)
    (h2 : ∀ d ∈ d2, 0 ≤ d ∧ d ≤ 1 / s.speed)
    (hsum : d1.sum = d2.sum) :
    (runMovement s d1).segments.headI = (runMovement s d2).segments.headI ∧
    (runMovement s d1).distance_moved = (runMovement s d2).distance_moved := by
  obtain ⟨k1, _, _, ha3, ha4, ha5, ha6, ha7⟩ := runMovement_spec d1 s hsp hmt0 hmt1 h1
  obtain ⟨k2, _, _, hb3, hb4, hb5, hb6, hb7⟩ := runMovement_spec d2 s hsp hmt0 hmt1 h2
  have htpc : 0 < 1 / s.speed := by positivity
  have hk : k1 = k2 := by
    refine stepsUnique (T := s.move_timer + d1.sum) htpc ?_ ?_ ?_ ?_
    · rw [← ha4]
      exact ha5
    · rw [← ha4]
      exact ha6
    · rw [hsum, ← hb4]
      exact hb5
    · rw [hsum, ← hb4]
      exact hb6
  rw [ha7, hb7, ha3, hb3, hk]
  exact ⟨rfl, rfl⟩

set_option maxRecDepth 40000 in
/-- Counterexample to claim C1 as stated: at speed 10 the single call with
dt = 1 performs only one grid step (the movement update uses `if`, not a
loop), while ten calls with dt = 1/10 and the same total time perform ten
steps and land on a different head cell. -/
theorem frame_rate_counterexample :
    (0 : ℚ) < (create_snake cfgBasic (5, 5) (1, 0)).speed ∧
    (∀ d ∈ [(1 : ℚ)], 0 ≤ d) ∧
    (∀ d ∈ List.replicate 10 ((1 : ℚ)/10), 0 ≤ d) ∧
    [(1 : ℚ)].sum = (List.replicate 10 ((1 : ℚ)/10)).sum ∧
    (runMovement (create_snake cfgBasic (5, 5) (1, 0)) [1]).distance_moved ≠
      (runMovement (create_snake cfgBasic (5, 5) (1, 0))
        (List.replicate 10 ((1 : ℚ)/10))).distance_moved ∧
    (runMovement (create_snake cfgBasic (5, 5) (1, 0)) [1]).segments.headI ≠
      (runMovement (create_snake cfgBasic (5, 5) (1, 0))
        (List.replicate 10 ((1 : ℚ)/10))).segments.headI := by
  decide

set_option maxRecDepth 40000 in
/-- Witness for C1 (amended): the claim's own instance — 30 calls of dt = 1/30
against 240 calls of dt = 1/240, one simulated second at speed 10 — agrees on
head cell and step count. -/
theorem frame_rate_independence_witness :
    (runMovement (create_snake cfgBasic (5, 5) (1, 0))
        (List.replicate 30 ((1 : ℚ)/30))).segments.headI =
      (runMovement (create_snake cfgBasic (5, 5) (1, 0))
        (List.replicate 240 ((1 : ℚ)/240))).segments.headI ∧
    (runMovement (create_snake cfgBasic (5, 5) (1, 0))
        (List.replicate 30 ((1 : ℚ)/30))).distance_moved =
      (runMovement (create_snake cfgBasic (5, 5) (1, 0))
        (List.replicate 240 ((1 : ℚ)/240))).distance_moved :=
  frame_rate_independence (create_snake cfgBasic (5, 5) (1, 0))
    (List.replicate 30 ((1 : ℚ)/30)) (List.replicate 240 ((1 : ℚ)/240))
    (by decide) (by decide) (by decide) (by decide) (by decide) (by decide)

/-! ### C5: one-shot food removal by the bite animation -/

/-- Apply `update_bite_animation` once per dt of a sequence, threading the
snake and the food list. -/
def biteRun (snakeId : ℕ) (p : Snake × List Food) (dts : List ℚ) : Snake × List Food :=
  dts.foldl (fun q dt => update_bite_animation snakeId q.1 dt q.2) p

/-- One bite-update step preserves the one-shot invariant: the food list is
the original list filtered exactly when the `food_hidden` flag is set, the
flag never resets within updates, and a deactivated bite has progress 0. -/
lemma update_bite_step (snakeId : ℕ) (s : Snake) (bs : BiteState) (dt : ℚ)
    (foods foods0 : List Food) (hbs : s.bite_state = some bs)
    (hinv : foods = if bs.food_hidden then foods0.filter (biteKeeps snakeId) else foods0)
    (hprog : bs.active = false → bs.progress = 0) :
    ∃ bs1, (update_bite_animation snakeId s dt foods).1.bite_state = some bs1 ∧
      (update_bite_animation snakeId s dt foods).2 =
        (if bs1.food_hidden then foods0.filter (biteKeeps snakeId) else foods0) ∧
      (bs1.active = false → bs1.progress = 0) ∧
      (bs.food_hidden = true → bs1.food_hidden = true) := by
  unfold update_bite_animation
  rw [hbs]
  rcases hact : bs.active with _ | _
  · refine ⟨bs, by simp [hact, hbs], by simp [hact, hinv], hprog, fun h => h⟩
  · simp only [hact, Bool.not_true, Bool.false_eq_true, if_false]
    rcases hfh : bs.food_hidden with _ | _
    · by_cases hcross : bs.progress + dt / bs.duration ≥ 2/5
      · simp only [hfh, hcross, Bool.not_false, Bool.and_true, decide_eq_true_eq,
          decide_True, if_true, Bool.true_and]
        by_cases hdone : bs.progress + dt / bs.duration ≥ 1
        · refine ⟨_, rfl, ?_, ?_, ?_⟩ <;> simp [hdone, hinv, hfh]
        · refine ⟨_, rfl, ?_, ?_, ?_⟩ <;> simp [hdone, hinv, hfh]
      · simp only [hfh, hcross, Bool.not_false, decide_eq_true_eq, decide_False,
          Bool.false_and, if_false]
        have hdone : ¬ bs.progress + dt / bs.duration ≥ 1 := by
          intro h
          exact hcross (by linarith)
        refine ⟨_, rfl, ?_, ?_, ?_⟩ <;> simp [hdone, hinv, hfh]
    · simp only [hfh, Bool.not_true, Bool.and_false, if_false]
      by_cases hdone : bs.progress + dt / bs.duration ≥ 1
      · refine ⟨_, rfl, ?_, ?_, ?_⟩ <;> simp [hdone, hinv, hfh]
      · refine ⟨_, rfl, ?_, ?_, ?_⟩ <;> simp [hdone, hinv, hfh]

/-- The one-shot invariant holds after any sequence of bite updates. -/
lemma biteRun_inv (snakeId : ℕ) : ∀ (dts : List ℚ) (s : Snake) (bs : BiteState)
    (foods foods0 : List Food), s.bite_state = some bs →
    foods = (if bs.food_hidden then foods0.filter (biteKeeps snakeId) else foods0) →
    (bs.active = false → bs.progress = 0) →
    ∃ bs1, (biteRun snakeId (s, foods) dts).1.bite_state = some bs1 ∧
      (biteRun snakeId (s, foods) dts).2 =
        (if bs1.food_hidden then foods0.filter (biteKeeps snakeId) else foods0) ∧
      (bs1.active = false → bs1.progress = 0) ∧
      (bs.food_hidden = true → bs1.food_hidden = true)
  | [], s, bs, foods, foods0, hbs, hinv, hprog =>
    ⟨bs, hbs, hinv, hprog, fun h => h⟩
  | dt :: dts, s, bs, foods, foods0, hbs, hinv, hprog => by
    obtain ⟨bs1, h1, h2, h3, h4⟩ :=
      update_bite_step snakeId s bs dt foods foods0 hbs hinv hprog
    have hrun : biteRun snakeId (s, foods) (dt :: dts) =
        biteRun snakeId (update_bite_animation snakeId s dt foods) dts := rfl
    obtain ⟨bs2, g1, g2, g3, g4⟩ :=
      biteRun_inv snakeId dts (update_bite_animation snakeId s dt foods).1 bs1
        (update_bite_animation snakeId s dt foods).2 foods0 h1 h2 h3
    refine ⟨bs2, ?_, ?_, g3, fun h => g4 (h4 h)⟩
    · rw [hrun]
      exact g1
    · rw [hrun]
      exact g2

/-- Claim C5: for a snake with a freshly active bite (progress below the
threshold would be the usual case, but any unhidden active bite qualifies),
over any dt sequence the food list is either untouched or — once and for all —
the original list with this snake's marked food removed, according to the
one-shot `food_hidden` flag; once the flag is set no later sequence of updates
changes the food list again; a deactivated bite always has progress reset to
0; the call that reaches progress 0.4 removes exactly the foods marked by this
snake and sets the flag; a call ending below 0.4 leaves the food list alone;
reaching 1.0 deactivates with progress 0; and `trigger_bite_animation` re-arms
a fresh active bite with progress 0 and the flag cleared (reusable state). -/
theorem bite_one_shot (snakeId : ℕ) (s : Snake) (bs : BiteState) (foods : List Food)
    (hbs : s.bite_state = some bs) (hact : bs.active = true)
    (hfh : bs.food_hidden = false) (dts l2 : List ℚ) :
    (∃ bs1, (biteRun snakeId (s, foods) dts).1.bite_state = some bs1 ∧
      (biteRun snakeId (s, foods) dts).2 =
        (if bs1.food_hidden then foods.filter (biteKeeps snakeId) else foods) ∧
      (bs1.food_hidden = true →
        (biteRun snakeId (biteRun snakeId (s, foods) dts) l2).2 =
          (biteRun snakeId (s, foods) dts).2) ∧
      (bs1.active = false → bs1.progress = 0)) ∧
    (∀ (t : Snake) (bt : BiteState) (fs : List Food) (dt : ℚ),
      t.bite_state = some bt → bt.active = true → bt.food_hidden = false →
      2/5 ≤ bt.progress + dt / bt.duration →
      (update_bite_animation snakeId t dt fs).2 = fs.filter (biteKeeps snakeId) ∧
      ∃ bt1, (update_bite_animation snakeId t dt fs).1.bite_state = some bt1 ∧
        bt1.food_hidden = true) ∧
    (∀ (t : Snake) (bt : BiteState) (fs : List Food) (dt : ℚ),
      t.bite_state = some bt → bt.active = true →
      bt.progress + dt / bt.duration < 2/5 →
      (update_bite_animation snakeId t dt fs).2 = fs) ∧
    (∀ (t : Snake) (bt : BiteState) (fs : List Food) (dt : ℚ),
      t.bite_state = some bt → bt.active = true →
      1 ≤ bt.progress + dt / bt.duration →
      ∃ bt1, (update_bite_animation snakeId t dt fs).1.bite_state = some bt1 ∧
        bt1.active = false ∧ bt1.progress = 0) ∧
    (∀ (cfg : Config) (t : Snake) (pos : ℚ × ℚ),
      ∃ bt1, (trigger_bite_animation cfg t pos).bite_state = some bt1 ∧
        bt1.active = true ∧ bt1.progress = 0 ∧ bt1.food_hidden = false) := by
  refine ⟨?_, ?_, ?_, ?_, ?_⟩
  · obtain ⟨bs1, h1, h2, h3, _⟩ := biteRun_inv snakeId dts s bs foods foods
      hbs (by rw [hfh]; simp) (by rw [hact]; intro h; cases h)
    refine ⟨bs1, h1, h2, ?_, h3⟩
    intro hfh1
    obtain ⟨bs2, g1, g2, _, g4⟩ := biteRun_inv snakeId l2
      (biteRun snakeId (s, foods) dts).1 bs1 (biteRun snakeId (s, foods) dts).2 foods
      h1 h2 h3
    rw [g2, g4 hfh1, h2, hfh1]
  · intro t bt fs dt hbt hactt hfht hcross
    unfold update_bite_animation
    rw [hbt]
    simp only [hactt, Bool.not_true, Bool.false_eq_true, if_false, hfht,
      Bool.not_false, Bool.and_true, ge_iff_le, hcross, decide_True, if_true,
      Bool.true_and]
    by_cases hdone : bt.progress + dt / bt.duration ≥ 1 <;>
      simp [hdone]
  · intro t bt fs dt hbt hactt hcross
    unfold update_bite_animation
    rw [hbt]
    have hnot : ¬ (2/5 : ℚ) ≤ bt.progress + dt / bt.duration := not_le.mpr hcross
    simp only [hactt, Bool.not_true, Bool.false_eq_true, if_false, ge_iff_le, hnot,
      decide_False, Bool.false_and, if_false]
  · intro t bt fs dt hbt hactt hdone
    unfold update_bite_animation
    rw [hbt]
    simp only [hactt, Bool.not_true, Bool.false_eq_true, if_false, ge_iff_le]
    rcases hfht : bt.food_hidden with _ | _ <;>
      by_cases hcross : (2/5 : ℚ) ≤ bt.progress + dt / bt.duration <;>
      simp [hcross, hdone]
  · intro cfg t pos
    exact ⟨_, rfl, rfl, rfl, rfl⟩

/-- Witness for C5: a concrete bite of duration 1/2 updated with dts
[1/10, 1/10, 1/10] (crossing 0.4 on the second call) and then [1/10] more. -/
theorem bite_one_shot_witness :
    (∃ bs1, (biteRun 7 (snakeWithTongue create_tongue_state (some biteActiveStart),
        [foodAt (2, 2), { foodAt (3, 3) with being_eaten := true, eaten_by := some 7 }])
        [1/10, 1/10, 1/10]).1.bite_state = some bs1 ∧
      (biteRun 7 (snakeWithTongue create_tongue_state (some biteActiveStart),
        [foodAt (2, 2), { foodAt (3, 3) with being_eaten := true, eaten_by := some 7 }])
        [1/10, 1/10, 1/10]).2 =
        (if bs1.food_hidden then
          [foodAt (2, 2), { foodAt (3, 3) with being_eaten := true, eaten_by := some 7 }].filter
            (biteKeeps 7)
        else [foodAt (2, 2), { foodAt (3, 3) with being_eaten := true, eaten_by := some 7 }]) ∧
      (bs1.food_hidden = true →
        (biteRun 7 (biteRun 7 (snakeWithTongue create_tongue_state (some biteActiveStart),
          [foodAt (2, 2), { foodAt (3, 3) with being_eaten := true, eaten_by := some 7 }])
          [1/10, 1/10, 1/10]) [1/10]).2 =
          (biteRun 7 (snakeWithTongue create_tongue_state (some biteActiveStart),
            [foodAt (2, 2), { foodAt (3, 3) with being_eaten := true, eaten_by := some 7 }])
            [1/10, 1/10, 1/10]).2) ∧
      (bs1.active = false → bs1.progress = 0)) ∧
    (∀ (t : Snake) (bt : BiteState) (fs : List Food) (dt : ℚ),
      t.bite_state = some bt → bt.active = true → bt.food_hidden = false →
      2/5 ≤ bt.progress + dt / bt.duration →
      (update_bite_animation 7 t dt fs).2 = fs.filter (biteKeeps 7) ∧
      ∃ bt1, (update_bite_animation 7 t dt fs).1.bite_state = some bt1 ∧
        bt1.food_hidden = true) ∧
    (∀ (t : Snake) (bt : BiteState) (fs : List Food) (dt : ℚ),
      t.bite_state = some bt → bt.active = true →
      bt.progress + dt / bt.duration < 2/5 →
      (update_bite_animation 7 t dt fs).2 = fs) ∧
    (∀ (t : Snake) (bt : BiteState) (fs : List Food) (dt : ℚ),
      t.bite_state = some bt → bt.active = true →
      1 ≤ bt.progress + dt / bt.duration →
      ∃ bt1, (update_bite_animation 7 t dt fs).1.bite_state = some bt1 ∧
        bt1.active = false ∧ bt1.progress = 0) ∧
    (∀ (cfg : Config) (t : Snake) (pos : ℚ × ℚ),
      ∃ bt1, (trigger_bite_animation cfg t pos).bite_state = some bt1 ∧
        bt1.active = true ∧ bt1.progress = 0 ∧ bt1.food_hidden = false) :=
  bite_one_shot 7 (snakeWithTongue create_tongue_state (some biteActiveStart))
    biteActiveStart
    [foodAt (2, 2), { foodAt (3, 3) with being_eaten := true, eaten_by := some 7 }]
    rfl rfl rfl [1/10, 1/10, 1/10] [1/10]

/-! ### C6: divergence of the food-replenishment loop -/

/-- A configuration whose map (13×10 = 130 cells, the smallest window the
config validation admits) is smaller than the required food count. -/
def cfgC6 : Config :=
  { cfgBasic with map_size_width := 13, map_size_height := 10, food_count := fun _ => 200 }

/-- A state whose 130 food items occupy the whole cell budget. -/
def stC6 : GameState :=
  baseState none (List.replicate 130 (create_food (0, 0)))

set_option maxRecDepth 40000 in
/-- Claim C6 is violated by the code: with every grid cell accounted for
(`available_cells ≤ 0`), `spawn_food_items` skips — as its own deadlock-
prevention comment promises — but the `while len(food_items) <
required_count` loop in `on_food_eaten` then repeats the skipped spawn
forever.  For every fuel bound the loop guard is still true afterwards, i.e.
the Python loop never exits. -/
theorem on_food_eaten_diverges :
    ∀ fuel : ℕ,
      on_food_eaten cfgC6 fuel stC6 = { stC6 with score := 1 } ∧
      ((on_food_eaten cfgC6 fuel stC6).food_items.length : ℤ) <
        get_required_food_count cfgC6 (on_food_eaten cfgC6 fuel stC6).score := by
  have hs : spawn_food_items cfgC6 { stC6 with score := 1 } = { stC6 with score := 1 } := rfl
  have hloop : ∀ n, replenishLoop cfgC6 200 n { stC6 with score := 1 } =
      { stC6 with score := 1 } := by
    intro n
    induction n with
    | zero => rfl
    | succ n ih =>
      have hguard : ((({ stC6 with score := 1 } : GameState).food_items.length : ℤ) < 200) := by
        decide
      rw [replenishLoop, if_pos hguard, hs]
      exact ih
  intro fuel
  have h0 : on_food_eaten cfgC6 fuel stC6 =
      replenishLoop cfgC6 200 fuel { stC6 with score := 1 } := rfl
  rw [h0, hloop]
  exact ⟨rfl, by decide⟩

/-! ### Preservation lemmas for spawning and stacking resolution

Food spawning and stacking resolution touch only the food list (appending new
items, moving positions) and the entropy cursor; they never change the two
snakes, the scores, the game-over flag, or the `being_eaten`/`eaten_by` marks
of the foods already present. -/

/-- The consumption marks of a food item. -/
def foodFlags (f : Food) : Bool × Option ℕ :=
  (f.being_eaten, f.eaten_by)

/-- What spawning/stacking-resolution leaves intact. -/
def preservesCore (st st' : GameState) : Prop :=
  st'.snake = st.snake ∧ st'.player_two = st.player_two ∧
  st'.score = st.score ∧ st'.score_two = st.score_two ∧
  st'.game_over = st.game_over ∧ st'.snake_id = st.snake_id ∧
  st'.player_two_id = st.player_two_id ∧
  st.food_items.length ≤ st'.food_items.length ∧
  ∀ k, k < st.food_items.length →
    (st'.food_items[k]?).map foodFlags = (st.food_items[k]?).map foodFlags

lemma preservesCore_refl (st : GameState) : preservesCore st st :=
  ⟨rfl, rfl, rfl, rfl, rfl, rfl, rfl, le_refl _, fun _ _ => rfl⟩

lemma preservesCore_trans {a b c : GameState}
    (hab : preservesCore a b) (hbc : preservesCore b c) : preservesCore a c := by
  obtain ⟨h1, h2, h3, h4, h5, h6, h7, h8, h9⟩ := hab
  obtain ⟨g1, g2, g3, g4, g5, g6, g7, g8, g9⟩ := hbc
  refine ⟨g1.trans h1, g2.trans h2, g3.trans h3, g4.trans h4, g5.trans h5,
    g6.trans h6, g7.trans h7, h8.trans g8, fun k hk => ?_⟩
  rw [g9 k (lt_of_lt_of_le hk h8), h9 k hk]

lemma foldl_preservesCore {α : Type} (f : GameState → α → GameState)
    (hf : ∀ st a, preservesCore st (f st a)) :
    ∀ (l : List α) (st : GameState), preservesCore st (l.foldl f st)
  | [], st => preservesCore_refl st
  | a :: l, st =>
    preservesCore_trans (hf st a) (foldl_preservesCore f hf l (f st a))

lemma setFoodPos_length (foods : List Food) (idx : ℕ) (pos : ℤ × ℤ) :
    (setFoodPos foods idx pos).length = foods.length := by
  unfold setFoodPos
  cases foods[idx]? <;> simp [List.length_set]

lemma setFoodPos_flags (foods : List Food) (idx : ℕ) (pos : ℤ × ℤ) (k : ℕ) :
    ((setFoodPos foods idx pos)[k]?).map foodFlags = (foods[k]?).map foodFlags := by
  unfold setFoodPos
  cases h : foods[idx]? with
  | none => rfl
  | some f =>
    rw [List.getElem?_set]
    by_cases hik : idx = k
    · subst hik
      obtain ⟨hlt, hget⟩ := List.getElem?_eq_some_iff.mp h
      rw [if_pos rfl, if_pos hlt, h]
      rfl
    · rw [if_neg hik]

lemma resolve_preserves (cfg : Config) (cols : List ((ℤ × ℤ) × List ℕ))
    (st : GameState) : preservesCore st (resolve_food_stacking cfg st cols) := by
  unfold resolve_food_stacking
  refine foldl_preservesCore _ (fun st e => ?_) cols st
  refine foldl_preservesCore _ (fun st idx => ?_) (e.2.drop 1) st
  cases hfind : find_adjacent_empty_cell cfg e.1 st true 3 with
  | none => exact preservesCore_refl st
  | some c =>
    refine ⟨rfl, rfl, rfl, rfl, rfl, rfl, rfl, ?_, fun k _ => ?_⟩
    · rw [setFoodPos_length]
    · exact setFoodPos_flags st.food_items idx c k

lemma spawnAttempts_preserves (cfg : Config) :
    ∀ (n : ℕ) (st : GameState), preservesCore st (spawnAttempts cfg n st)
  | 0, st => preservesCore_refl st
  | n + 1, st => by
    rw [spawnAttempts]
    set st1 : GameState := { st with rng_idx := st.rng_idx + 1 } with hst1
    have hcur : preservesCore st st1 :=
      ⟨rfl, rfl, rfl, rfl, rfl, rfl, rfl, le_refl _, fun _ _ => rfl⟩
    by_cases hvalid : is_valid_spawn_position cfg
        (((((st.rng st.rng_idx).1 : ℤ) % cfg.map_size_width : ℤ) : ℚ),
         ((((st.rng st.rng_idx).2 : ℤ) % cfg.map_size_height : ℤ) : ℚ)) st1 = true
    · rw [if_pos hvalid]
      set st2 : GameState := { st1 with food_items := st1.food_items ++
        [create_food ((st.rng st.rng_idx).1 % cfg.map_size_width,
          (st.rng st.rng_idx).2 % cfg.map_size_height)] } with hst2
      have happend : preservesCore st st2 := by
        refine ⟨rfl, rfl, rfl, rfl, rfl, rfl, rfl, ?_, fun k hk => ?_⟩
        · simp [hst2]
        · have : st2.food_items[k]? = st.food_items[k]? := by
            rw [hst2]
            simp only [List.getElem?_append]
            rw [if_pos hk]
          rw [this]
      by_cases hcols : (detect_food_collisions st2.food_items).isEmpty = true
      · rw [if_pos hcols]
        exact happend
      · rw [if_neg hcols]
        exact preservesCore_trans happend
          (resolve_preserves cfg (detect_food_collisions st2.food_items) st2)
    · rw [if_neg hvalid]
      exact preservesCore_trans hcur (spawnAttempts_preserves cfg n st1)

lemma spawn_preserves (cfg : Config) (st : GameState) :
    preservesCore st (spawn_food_items cfg st) := by
  unfold spawn_food_items
  simp only []
  split
  · exact preservesCore_refl st
  · exact spawnAttempts_preserves cfg 100 st

lemma replenishLoop_preserves (cfg : Config) (required : ℤ) :
    ∀ (fuel : ℕ) (st : GameState), preservesCore st (replenishLoop cfg required fuel st)
  | 0, st => preservesCore_refl st
  | fuel + 1, st => by
    rw [replenishLoop]
    split
    · exact preservesCore_trans (spawn_preserves cfg st)
        (replenishLoop_preserves cfg required fuel (spawn_food_items cfg st))
    · exact preservesCore_refl st

/-- `on_food_eaten` adds one to the score and otherwise preserves the core
state (snakes, other scores, flags, and the marks of existing foods). -/
lemma on_food_eaten_spec (cfg : Config) (fuel : ℕ) (st : GameState) :
    preservesCore { st with score := st.score + 1 } (on_food_eaten cfg fuel st) :=
  replenishLoop_preserves cfg
    (get_required_food_count cfg (st.score + 1)) fuel { st with score := st.score + 1 }

/-! ### C2: order of the food-collision scan -/

/-- The scan of `check_food_collision` finds exactly the first index (in list
order) whose food overlaps the head hitbox; `being_eaten` is not consulted. -/
lemma check_food_collision_spec (cfg : Config) (s : Snake) :
    ∀ (foods : List Food) (k : ℕ),
      check_food_collision cfg s foods = some k ↔
        ((∃ f, foods[k]? = some f ∧ overlapsHead cfg s f = true) ∧
         (∀ j, j < k → ∀ g, foods[j]? = some g → overlapsHead cfg s g = false))
  | [], k => by
    simp [check_food_collision]
  | f :: fs, k => by
    rcases hov : overlapsHead cfg s f with _ | _
    · have hstep : check_food_collision cfg s (f :: fs) =
          (check_food_collision cfg s fs).map (· + 1) := by
        simp [check_food_collision, hov]
      rw [hstep]
      cases k with
      | zero =>
        constructor
        · intro h
          rcases hr : check_food_collision cfg s fs with _ | k'
          · rw [hr] at h
            simp at h
          · rw [hr] at h
            simp at h
        · rintro ⟨⟨g, hg, hgov⟩, _⟩
          rw [List.getElem?_cons_zero] at hg
          injection hg with hg
          subst hg
          rw [hov] at hgov
          cases hgov
      | succ k =>
        constructor
        · intro h
          rcases hr : check_food_collision cfg s fs with _ | k'
          · rw [hr] at h
            simp at h
          · rw [hr] at h
            simp at h
            subst h
            obtain ⟨⟨g, hg, hgov⟩, hall⟩ := (check_food_collision_spec cfg s fs k').mp hr
            refine ⟨⟨g, by simpa using hg, hgov⟩, ?_⟩
            intro j hj g' hg'
            cases j with
            | zero =>
              rw [List.getElem?_cons_zero] at hg'
              injection hg' with hg'
              subst hg'
              exact hov
            | succ j =>
              rw [List.getElem?_cons_succ] at hg'
              exact hall j (Nat.lt_of_succ_lt_succ hj) g' hg'
        · rintro ⟨⟨g, hg, hgov⟩, hall⟩
          rw [List.getElem?_cons_succ] at hg
          have hrec : check_food_collision cfg s fs = some k := by
            rw [check_food_collision_spec cfg s fs k]
            exact ⟨⟨g, hg, hgov⟩, fun j hj g' hg' =>
              hall (j + 1) (Nat.succ_lt_succ hj) g' (by simpa using hg')⟩
          rw [hrec]
          rfl
    · have hstep : check_food_collision cfg s (f :: fs) = some 0 := by
        simp [check_food_collision, hov]
      rw [hstep]
      constructor
      · intro h
        injection h with h
        subst h
        exact ⟨⟨f, by simp, hov⟩, fun j hj => absurd hj (Nat.not_lt_zero j)⟩
      · rintro ⟨⟨g, hg, hgov⟩, hall⟩
        cases k with
        | zero => rfl
        | succ k =>
          have hbad := hall 0 (Nat.succ_pos k) f (by simp)
          rw [hov] at hbad
          cases hbad

/-- When the first overlapping food is already marked `being_eaten`, the
single-player collision tick consumes nothing: score, food list and snake are
unchanged. -/
lemma check_collisions_no_consume (cfg : Config) (fuel : ℕ) (st : GameState)
    (snake : Snake) (i : ℕ) (f : Food)
    (hgo : st.game_over = false) (hsnake : st.snake = some snake)
    (halpha : cfg.secret_mode_alpha = false) (homega : cfg.secret_mode_omega = false)
    (hfind : check_food_collision cfg snake st.food_items = some i)
    (hfood : st.food_items[i]? = some f) (hbe : f.being_eaten = true) :
    (check_collisions cfg fuel st).score = st.score ∧
    (check_collisions cfg fuel st).food_items = st.food_items ∧
    (check_collisions cfg fuel st).snake = st.snake := by
  unfold check_collisions
  simp only [hgo, hsnake, hfind, hfood, hbe, halpha, homega, Bool.false_eq_true,
    if_false, Bool.not_true, Bool.false_and, Bool.false_or]
  split <;> refine ⟨rfl, rfl, ?_⟩ <;> first | rfl | exact hsnake

/-- Claim C2 (amended): the scan returns the first food in list order whose
hitbox circle overlaps the head hitbox circle, with no regard to
`being_eaten`; consumption happens only when that first overlapping food is
not already marked, so a marked first match blocks consumption for the whole
tick even if a later unmarked food also overlaps. -/
theorem food_scan_order (cfg : Config) (fuel : ℕ) (st : GameState)
    (snake : Snake) (i : ℕ) (f : Food)
    (hgo : st.game_over = false) (hsnake : st.snake = some snake)
    (halpha : cfg.secret_mode_alpha = false) (homega : cfg.secret_mode_omega = false)
    (hfind : check_food_collision cfg snake st.food_items = some i)
    (hfood : st.food_items[i]? = some f) (hbe : f.being_eaten = true) :
    (∀ (foods : List Food) (k : ℕ),
      check_food_collision cfg snake foods = some k ↔
        ((∃ g, foods[k]? = some g ∧ overlapsHead cfg snake g = true) ∧
         (∀ j, j < k → ∀ g, foods[j]? = some g → overlapsHead cfg snake g = false))) ∧
    (check_collisions cfg fuel st).score = st.score ∧
    (check_collisions cfg fuel st).food_items = st.food_items ∧
    (check_collisions cfg fuel st).snake = st.snake := by
  refine ⟨fun foods k => check_food_collision_spec cfg snake foods k, ?_⟩
  exact check_collisions_no_consume cfg fuel st snake i f hgo hsnake halpha homega
    hfind hfood hbe

/-- First food: overlapping but already being eaten (owner 99). -/
def foodAx : Food := { foodAt (0, 0) with being_eaten := true, eaten_by := some 99 }

/-- Second food: overlapping and not being eaten. -/
def foodBx : Food := foodAt (0, 0)

/-- A snake whose head hitbox overlaps both foods above. -/
def snakeC2x : Snake := create_snake cfgBasic (0, 0) (1, 0)

/-- State for the C2 counterexample: first overlapping food marked, second
overlapping food unmarked. -/
def stC2x : GameState := baseState (some snakeC2x) [foodAx, foodBx]

/-- Counterexample to claim C2 as stated: the later unmarked overlapping food
is NOT consumed that tick — the scan returns the marked first food and the
consumption gate then does nothing: the score does not change and the second
food stays unmarked. -/
theorem food_scan_counterexample :
    overlapsHead cfgBasic snakeC2x foodBx = true ∧
    foodBx.being_eaten = false ∧
    foodAx.being_eaten = true ∧
    overlapsHead cfgBasic snakeC2x foodAx = true ∧
    (check_collisions cfgBasic 1 stC2x).score = stC2x.score ∧
    ((check_collisions cfgBasic 1 stC2x).food_items[1]?).map foodFlags =
      some (false, none) := by
  decide

/-- Witness for C2 (amended), at the concrete blocked-consumption state. -/
theorem food_scan_order_witness :
    (∀ (foods : List Food) (k : ℕ),
      check_food_collision cfgBasic snakeC2x foods = some k ↔
        ((∃ g, foods[k]? = some g ∧ overlapsHead cfgBasic snakeC2x g = true) ∧
         (∀ j, j < k → ∀ g, foods[j]? = some g →
            overlapsHead cfgBasic snakeC2x g = false))) ∧
    (check_collisions cfgBasic 1 stC2x).score = stC2x.score ∧
    (check_collisions cfgBasic 1 stC2x).food_items = stC2x.food_items ∧
    (check_collisions cfgBasic 1 stC2x).snake = stC2x.snake :=
  food_scan_order cfgBasic 1 stC2x snakeC2x 0 foodAx rfl rfl rfl rfl (by decide)
    (by decide) (by decide)

/-! ### C3: effects of consuming a food -/

/-- Claim C3: when the single-player collision tick finds an overlapping food
that is not already being eaten, afterwards the score is exactly one greater;
the snake has exactly one more segment, the new one duplicating the old tail
cell; the food is marked `being_eaten` with this snake recorded as owner; the
snake carries a fresh bite state with `active = true` and `progress = 0`; and
the speed has been recomputed from the new score — whatever the
food-replenishment loop then does (any fuel). -/
theorem eat_effects (cfg : Config) (fuel : ℕ) (st : GameState)
    (snake : Snake) (i : ℕ) (f : Food)
    (hgo : st.game_over = false) (hsnake : st.snake = some snake)
    (halpha : cfg.secret_mode_alpha = false) (homega : cfg.secret_mode_omega = false)
    (hfind : check_food_collision cfg snake st.food_items = some i)
    (hfood : st.food_items[i]? = some f) (hbe : f.being_eaten = false)
    (hne : snake.segments ≠ []) :
    ∃ snake1,
      (check_collisions cfg fuel st).snake = some snake1 ∧
      snake1.segments = snake.segments ++ [snake.segments.getLast hne] ∧
      snake1.segments.length = snake.segments.length + 1 ∧
      snake1.speed = cfg.speed_calculation snake.speed (st.score + 1) ∧
      (∃ bs, snake1.bite_state = some bs ∧ bs.active = true ∧ bs.progress = 0 ∧
        bs.food_hidden = false) ∧
      (check_collisions cfg fuel st).score = st.score + 1 ∧
      ((check_collisions cfg fuel st).food_items[i]?).map foodFlags =
        some (true, some st.snake_id) := by
  have hilt : i < st.food_items.length := (List.getElem?_eq_some_iff.mp hfood).1
  set foods1 : List Food :=
    st.food_items.set i { f with being_eaten := true, eaten_by := some st.snake_id }
    with hfoods1
  set snakeB : Snake :=
    add_segment (trigger_bite_animation cfg snake (pixelCenter cfg f.position))
    with hsnakeB
  set st1 : GameState := { st with food_items := foods1, snake := some snakeB }
    with hst1
  set st2 : GameState := on_food_eaten cfg fuel st1 with hst2
  set snakeC : Snake := update_speed cfg snakeB st2.score with hsnakeC
  have hcc : check_collisions cfg fuel st =
      (if !(!check_wall_collision cfg snake && !check_self_collision snake) then
        { ({ st2 with snake := some snakeC } : GameState) with game_over := true }
      else { st2 with snake := some snakeC }) := by
    unfold check_collisions
    rw [if_neg (by rw [hgo]; simp)]
    simp only [hsnake, hfind, hfood, hbe, halpha, homega, Bool.not_false, if_true,
      Bool.false_eq_true, if_false, Bool.false_and, Bool.false_or]
  obtain ⟨hp1, hp2, hp3, hp4, hp5, hp6, hp7, hp8, hp9⟩ := on_food_eaten_spec cfg fuel st1
  have hscore2 : st2.score = st.score + 1 := hp3
  have hsegs : snakeC.segments = snake.segments ++ [snake.segments.getLast hne] := by
    rw [show snakeC.segments = snake.segments ++ [snake.segments.getLastD (0, 0)] from rfl,
      List.getLastD_eq_getLast?, List.getLast?_eq_getLast snake.segments hne]
    rfl
  have hflags : (st2.food_items[i]?).map foodFlags = some (true, some st.snake_id) := by
    have hlen1 : i < st1.food_items.length := by
      rw [hst1]
      simpa [hfoods1, List.length_set] using hilt
    rw [hp9 i hlen1, hst1]
    simp only [hfoods1]
    simp [List.getElem?_set, hilt, foodFlags]
  refine ⟨snakeC, ?_, hsegs, ?_, ?_, ?_, ?_, ?_⟩
  · rw [hcc]
    split <;> rfl
  · rw [hsegs]
    simp
  · rw [show snakeC.speed = cfg.speed_calculation snake.speed st2.score from rfl, hscore2]
  · exact ⟨_, rfl, rfl, rfl, rfl⟩
  · rw [hcc]
    split <;> exact hscore2
  · rw [hcc]
    split <;> exact hflags

/-- A single-food single-player state in which the snake consumes the food. -/
def stC3x : GameState := baseState (some snakeC2x) [foodBx]

/-- Witness for C3 at a concrete consuming state (constant food count 1, so
the replenishment loop exits immediately). -/
theorem eat_effects_witness :
    ∃ snake1,
      (check_collisions cfgBasic 3 stC3x).snake = some snake1 ∧
      snake1.segments = snakeC2x.segments ++ [snakeC2x.segments.getLast (by decide)] ∧
      snake1.segments.length = snakeC2x.segments.length + 1 ∧
      snake1.speed = cfgBasic.speed_calculation snakeC2x.speed (stC3x.score + 1) ∧
      (∃ bs, snake1.bite_state = some bs ∧ bs.active = true ∧ bs.progress = 0 ∧
        bs.food_hidden = false) ∧
      (check_collisions cfgBasic 3 stC3x).score = stC3x.score + 1 ∧
      ((check_collisions cfgBasic 3 stC3x).food_items[0]?).map foodFlags =
        some (true, some stC3x.snake_id) :=
  eat_effects cfgBasic 3 stC3x snakeC2x 0 foodBx rfl rfl rfl rfl (by decide)
    (by decide) (by decide) (by decide)

/-! ### C7: food stacking resolution -/

lemma mem_intRange {a b x : ℤ} : x ∈ intRange a b ↔ a ≤ x ∧ x ≤ b := by
  unfold intRange
  rw [List.mem_map]
  constructor
  · rintro ⟨k, hk, rfl⟩
    rw [List.mem_range] at hk
    have hk2 := Int.lt_toNat.mp hk
    have hk0 : (0 : ℤ) ≤ (k : ℤ) := Int.natCast_nonneg k
    exact ⟨by linarith, by linarith⟩
  · rintro ⟨h1, h2⟩
    refine ⟨(x - a).toNat, ?_, ?_⟩
    · rw [List.mem_range, Int.toNat_lt_toNat (by linarith)]
      linarith
    · rw [Int.toNat_of_nonneg (by linarith)]
      ring

/-- Every candidate produced at a search radius is an unoccupied cell. -/
lemma candidatesAt_not_occupied (cfg : Config) (position : ℤ × ℤ)
    (occ : List (ℤ × ℤ)) (snake_head : Option (ℤ × ℤ)) (prefer : Bool)
    (radius : ℕ) (z : ℤ × ℤ × ℚ)
    (hz : z ∈ candidatesAt cfg position occ snake_head prefer radius) :
    (z.1, z.2.1) ∉ occ := by
  unfold candidatesAt at hz
  rw [List.mem_flatMap] at hz
  obtain ⟨dx, _, hz⟩ := hz
  rw [List.mem_filterMap] at hz
  obtain ⟨dy, _, hdy⟩ := hz
  by_cases h1 : dx.natAbs + dy.natAbs ≠ radius
  · rw [if_pos h1] at hdy
    cases hdy
  · rw [if_neg h1] at hdy
    simp only [] at hdy
    by_cases h2 : position.1 + dx < 0 ∨ position.1 + dx ≥ cfg.map_size_width ∨
        position.2 + dy < 0 ∨ position.2 + dy ≥ cfg.map_size_height
    · rw [if_pos h2] at hdy
      cases hdy
    · rw [if_neg h2] at hdy
      by_cases h3 : (position.1 + dx, position.2 + dy) ∈ occ
      · rw [if_pos h3] at hdy
        cases hdy
      · rw [if_neg h3] at hdy
        rcases prefer with _ | _ <;> rcases snake_head with _ | hd <;>
          (injection hdy with hdy
           rw [← hdy]
           exact h3)

/-- An in-bounds unoccupied cell yields a candidate at its own Manhattan
radius from the search center. -/
lemma candidatesAt_mem_exists (cfg : Config) (position : ℤ × ℤ)
    (occ : List (ℤ × ℤ)) (snake_head : Option (ℤ × ℤ)) (prefer : Bool)
    (c : ℤ × ℤ) (hx0 : 0 ≤ c.1) (hxw : c.1 < cfg.map_size_width)
    (hy0 : 0 ≤ c.2) (hyh : c.2 < cfg.map_size_height) (hocc : c ∉ occ) :
    ∃ z, z ∈ candidatesAt cfg position occ snake_head prefer
      ((c.1 - position.1).natAbs + (c.2 - position.2).natAbs) := by
  set r : ℕ := (c.1 - position.1).natAbs + (c.2 - position.2).natAbs with hrdef
  have hdx : c.1 - position.1 ∈ intRange (-(r : ℤ)) (r : ℤ) := by
    rw [mem_intRange]
    omega
  have hdy : c.2 - position.2 ∈ intRange (-(r : ℤ)) (r : ℤ) := by
    rw [mem_intRange]
    omega
  have hpair : (position.1 + (c.1 - position.1), position.2 + (c.2 - position.2)) = c := by
    rw [Prod.ext_iff]
    constructor <;> simp
  rcases prefer with _ | _ <;> rcases snake_head with _ | hd
  · exact ⟨(position.1 + (c.1 - position.1), position.2 + (c.2 - position.2), 0), by
      unfold candidatesAt
      rw [List.mem_flatMap]
      refine ⟨c.1 - position.1, hdx, ?_⟩
      rw [List.mem_filterMap]
      refine ⟨c.2 - position.2, hdy, ?_⟩
      rw [if_neg (show ¬ ((c.1 - position.1).natAbs + (c.2 - position.2).natAbs ≠ r) by
        omega)]
      simp only []
      rw [if_neg (by omega), if_neg (by rw [hpair]; exact hocc)]⟩
  · exact ⟨(position.1 + (c.1 - position.1), position.2 + (c.2 - position.2), 0), by
      unfold candidatesAt
      rw [List.mem_flatMap]
      refine ⟨c.1 - position.1, hdx, ?_⟩
      rw [List.mem_filterMap]
      refine ⟨c.2 - position.2, hdy, ?_⟩
      rw [if_neg (show ¬ ((c.1 - position.1).natAbs + (c.2 - position.2).natAbs ≠ r) by
        omega)]
      simp only []
      rw [if_neg (by omega), if_neg (by rw [hpair]; exact hocc)]⟩
  · exact ⟨(position.1 + (c.1 - position.1), position.2 + (c.2 - position.2), 0), by
      unfold candidatesAt
      rw [List.mem_flatMap]
      refine ⟨c.1 - position.1, hdx, ?_⟩
      rw [List.mem_filterMap]
      refine ⟨c.2 - position.2, hdy, ?_⟩
      rw [if_neg (show ¬ ((c.1 - position.1).natAbs + (c.2 - position.2).natAbs ≠ r) by
        omega)]
      simp only []
      rw [if_neg (by omega), if_neg (by rw [hpair]; exact hocc)]⟩
  · exact ⟨(position.1 + (c.1 - position.1), position.2 + (c.2 - position.2),
      distSq (((position.1 + (c.1 - position.1) : ℤ) : ℚ),
        ((position.2 + (c.2 - position.2) : ℤ) : ℚ)) ((hd.1 : ℚ), (hd.2 : ℚ))), by
      unfold candidatesAt
      rw [List.mem_flatMap]
      refine ⟨c.1 - position.1, hdx, ?_⟩
      rw [List.mem_filterMap]
      refine ⟨c.2 - position.2, hdy, ?_⟩
      rw [if_neg (show ¬ ((c.1 - position.1).natAbs + (c.2 - position.2).natAbs ≠ r) by
        omega)]
      simp only []
      rw [if_neg (by omega), if_neg (by rw [hpair]; exact hocc)]⟩

/-- Whatever cell the expanding search returns is unoccupied. -/
lemma find_adjacent_not_occupied (cfg : Config) (position : ℤ × ℤ)
    (st : GameState) (maxr : ℕ) (c : ℤ × ℤ)
    (h : find_adjacent_empty_cell cfg position st true maxr = some c) :
    c ∉ occupiedCells st := by
  unfold find_adjacent_empty_cell at h
  obtain ⟨r, hrmem, hr⟩ := List.exists_of_findSome?_eq_some h
  simp only [] at hr
  by_cases hemp : (candidatesAt cfg position (occupiedCells st)
      (st.snake.map (fun s => s.segments.headI)) true r).isEmpty
  · rw [if_pos hemp] at hr
    cases hr
  · rw [if_neg hemp] at hr
    by_cases hb : (true && (st.snake.map (fun s => s.segments.headI)).isSome) = true
    · rw [if_pos hb] at hr
      rcases hms : (candidatesAt cfg position (occupiedCells st)
          (st.snake.map (fun s => s.segments.headI)) true r).mergeSort
          (fun a b => decide (b.2.2 ≤ a.2.2)) with _ | ⟨z, rest⟩
      · rw [hms] at hr
        cases hr
      · rw [hms] at hr
        injection hr with hr
        have hzmem : z ∈ candidatesAt cfg position (occupiedCells st)
            (st.snake.map (fun s => s.segments.headI)) true r := by
          have hz1 : z ∈ (candidatesAt cfg position (occupiedCells st)
              (st.snake.map (fun s => s.segments.headI)) true r).mergeSort
              (fun a b => decide (b.2.2 ≤ a.2.2)) := by
            rw [hms]
            exact List.mem_cons_self z rest
          exact List.mem_mergeSort.mp hz1
        rw [← hr]
        exact candidatesAt_not_occupied cfg position (occupiedCells st)
          (st.snake.map (fun s => s.segments.headI)) true r z hzmem
    · rw [if_neg hb] at hr
      rcases hcs : candidatesAt cfg position (occupiedCells st)
          (st.snake.map (fun s => s.segments.headI)) true r with _ | ⟨z, rest⟩
      · rw [hcs] at hr
        cases hr
      · rw [hcs] at hr
        injection hr with hr
        rw [← hr]
        exact candidatesAt_not_occupied cfg position (occupiedCells st)
          (st.snake.map (fun s => s.segments.headI)) true r z
          (by rw [hcs]; exact List.mem_cons_self z rest)

/-- If some in-bounds unoccupied cell lies at Manhattan distance 1..3 from the
search center, the expanding search succeeds, returning an unoccupied cell. -/
lemma find_adjacent_spec (cfg : Config) (position : ℤ × ℤ) (st : GameState)
    (c : ℤ × ℤ) (hx0 : 0 ≤ c.1) (hxw : c.1 < cfg.map_size_width)
    (hy0 : 0 ≤ c.2) (hyh : c.2 < cfg.map_size_height)
    (hr1 : 1 ≤ (c.1 - position.1).natAbs + (c.2 - position.2).natAbs)
    (hr3 : (c.1 - position.1).natAbs + (c.2 - position.2).natAbs ≤ 3)
    (hocc : c ∉ occupiedCells st) :
    ∃ c2, find_adjacent_empty_cell cfg position st true 3 = some c2 ∧
      c2 ∉ occupiedCells st := by
  rcases hf : find_adjacent_empty_cell cfg position st true 3 with _ | c2
  · exfalso
    unfold find_adjacent_empty_cell at hf
    rw [List.findSome?_eq_none_iff] at hf
    obtain ⟨z, hz⟩ := candidatesAt_mem_exists cfg position (occupiedCells st)
      (st.snake.map (fun s => s.segments.headI)) true c hx0 hxw hy0 hyh hocc
    set r : ℕ := (c.1 - position.1).natAbs + (c.2 - position.2).natAbs with hrdef
    have hrmem : r ∈ (List.range 3).map (· + 1) := by
      rw [List.mem_map]
      refine ⟨r - 1, ?_, ?_⟩
      · rw [List.mem_range]
        omega
      · omega
    have h0 := hf r hrmem
    simp only [] at h0
    have hne : ¬ (candidatesAt cfg position (occupiedCells st)
        (st.snake.map (fun s => s.segments.headI)) true r).isEmpty = true := by
      intro hx
      rw [List.isEmpty_iff] at hx
      rw [hx] at hz
      cases hz
    rw [if_neg hne] at h0
    by_cases hb : (true && (st.snake.map (fun s => s.segments.headI)).isSome) = true
    · rw [if_pos hb] at h0
      rcases hms : (candidatesAt cfg position (occupiedCells st)
          (st.snake.map (fun s => s.segments.headI)) true r).mergeSort
          (fun a b => decide (b.2.2 ≤ a.2.2)) with _ | ⟨z0, rest⟩
      · have hz1 : z ∈ (candidatesAt cfg position (occupiedCells st)
            (st.snake.map (fun s => s.segments.headI)) true r).mergeSort
            (fun a b => decide (b.2.2 ≤ a.2.2)) := List.mem_mergeSort.mpr hz
        rw [hms] at hz1
        cases hz1
      · rw [hms] at h0
        cases h0
    · rw [if_neg hb] at h0
      rcases hcs : candidatesAt cfg position (occupiedCells st)
          (st.snake.map (fun s => s.segments.headI)) true r with _ | ⟨z0, rest⟩
      · rw [hcs] at hz
        cases hz
      · rw [hcs] at h0
        cases h0
  · exact ⟨c2, rfl, find_adjacent_not_occupied cfg position st 3 c2 hf⟩

/-- `int()` of an integer-valued rational is that integer. -/
lemma ratTrunc_intCast (n : ℤ) : ratTrunc (n : ℚ) = n := by
  unfold ratTrunc
  rw [Rat.num_intCast, Rat.den_intCast]
  exact Int.tdiv_one n

/-- The truncated cell of a food placed exactly on an integer cell. -/
lemma foodCell_intCast (f : Food) (c : ℤ × ℤ) :
    foodCell { f with position := ((c.1 : ℚ), (c.2 : ℚ)) } = c := by
  unfold foodCell
  rw [Prod.ext_iff]
  exact ⟨ratTrunc_intCast c.1, ratTrunc_intCast c.2⟩

/-- Claim C7 (amended, following the spec's own two-item formulation): for a
food list with exactly one stacked cell, shared by exactly two foods — the
detector reports a single group `(p, [i, j])` and the cells with the
duplicate removed are pairwise distinct — and at least one in-bounds
unoccupied cell within Manhattan radius 3 of `p`, running the detector
followed by `resolve_food_stacking` leaves no two foods on a common truncated
cell, and the first food of the group keeps its entry (hence its position).
With three or more stacked foods, or with too few empty cells for the whole
group, stacks can survive (see the counterexample). -/
theorem resolve_stacking_pair (cfg : Config) (st : GameState) (p : ℤ × ℤ)
    (i j : ℕ)
    (hdet : detect_food_collisions st.food_items = [(p, [i, j])])
    (hij : i ≠ j) (hj : j < st.food_items.length)
    (hnd : ((st.food_items.map foodCell).eraseIdx j).Nodup)
    (hempty : ∃ c : ℤ × ℤ, 0 ≤ c.1 ∧ c.1 < cfg.map_size_width ∧ 0 ≤ c.2 ∧
      c.2 < cfg.map_size_height ∧
      1 ≤ (c.1 - p.1).natAbs + (c.2 - p.2).natAbs ∧
      (c.1 - p.1).natAbs + (c.2 - p.2).natAbs ≤ 3 ∧
      c ∉ occupiedCells st) :
    ((resolve_food_stacking cfg st
        (detect_food_collisions st.food_items)).food_items.map foodCell).Nodup ∧
    (resolve_food_stacking cfg st
        (detect_food_collisions st.food_items)).food_items[i]? =
      st.food_items[i]? := by
  obtain ⟨c0, h1, h2, h3, h4, h5, h6, h7⟩ := hempty
  obtain ⟨c, hfind, hocc⟩ := find_adjacent_spec cfg p st c0 h1 h2 h3 h4 h5 h6 h7
  rw [hdet]
  have hres : resolve_food_stacking cfg st [(p, [i, j])] =
      { st with food_items := setFoodPos st.food_items j c } := by
    unfold resolve_food_stacking
    simp only [List.foldl_cons, List.foldl_nil, List.drop_succ_cons, List.drop_zero]
    rw [hfind]
  rw [hres]
  obtain ⟨f, hf⟩ : ∃ f, st.food_items[j]? = some f := by
    rcases hx : st.food_items[j]? with _ | f
    · exfalso
      rw [List.getElem?_eq_none_iff] at hx
      omega
    · exact ⟨f, rfl⟩
  have hset : setFoodPos st.food_items j c =
      st.food_items.set j { f with position := ((c.1 : ℚ), (c.2 : ℚ)) } := by
    unfold setFoodPos
    rw [hf]
  constructor
  · show ((setFoodPos st.food_items j c).map foodCell).Nodup
    rw [hset, List.map_set, foodCell_intCast]
    have hjlen : j < (st.food_items.map foodCell).length := by
      simpa using hj
    have hcmem : c ∉ st.food_items.map foodCell := by
      intro hmem
      exact hocc (List.mem_append_right _ hmem)
    rw [List.set_eq_take_append_cons_drop, if_pos hjlen, List.nodup_middle,
      List.nodup_cons]
    rw [List.eraseIdx_eq_take_drop_succ] at hnd
    refine ⟨fun hmem => ?_, hnd⟩
    rcases List.mem_append.mp hmem with hmem | hmem
    · exact hcmem (List.take_subset _ _ hmem)
    · exact hcmem (List.drop_subset _ _ hmem)
  · show (setFoodPos st.food_items j c)[i]? = st.food_items[i]?
    rw [hset, List.getElem?_set, if_neg (fun hji => hij hji.symm)]

/-- State for the C7 counterexample: three foods stacked on (0,0); further
foods fill every in-bounds cell of the radius-3 neighbourhood except (1,0). -/
def stC7 : GameState :=
  baseState none
    [foodAt (0, 0), foodAt (0, 0), foodAt (0, 0),
     foodAt (0, 1), foodAt (1, 1), foodAt (2, 0), foodAt (0, 2),
     foodAt (2, 1), foodAt (1, 2), foodAt (3, 0), foodAt (0, 3)]

set_option maxRecDepth 40000 in
/-- Counterexample to claim C7 as stated: three foods stack on one cell whose
search neighbourhood holds exactly one empty cell — one food is relocated
there, the second relocation finds nothing and is left in place, so two foods
still share a truncated cell even though an empty cell existed within the
bounded search radius of the stacked cell. -/
theorem food_stacking_counterexample :
    detect_food_collisions stC7.food_items = [((0, 0), [0, 1, 2])] ∧
    (0 ≤ (1 : ℤ) ∧ (1 : ℤ) < cfgBasic.map_size_width ∧ 0 ≤ (0 : ℤ) ∧
      (0 : ℤ) < cfgBasic.map_size_height ∧
      ((1 : ℤ) - 0).natAbs + ((0 : ℤ) - 0).natAbs = 1 ∧
      ((1, 0) : ℤ × ℤ) ∉ occupiedCells stC7) ∧
    ¬ ((resolve_food_stacking cfgBasic stC7
        (detect_food_collisions stC7.food_items)).food_items.map foodCell).Nodup := by
  decide

/-- State for the C7 witness: exactly two foods stacked on (0,0), a third
food elsewhere, no snake. -/
def stC7w : GameState :=
  baseState none [foodAt (0, 0), foodAt (0, 0), foodAt (5, 5)]

/-- Witness for C7 (amended) on a concrete two-food stack. -/
theorem resolve_stacking_pair_witness :
    ((resolve_food_stacking cfgBasic stC7w
        (detect_food_collisions stC7w.food_items)).food_items.map foodCell).Nodup ∧
    (resolve_food_stacking cfgBasic stC7w
        (detect_food_collisions stC7w.food_items)).food_items[0]? =
      stC7w.food_items[0]? :=
  resolve_stacking_pair cfgBasic stC7w (0, 0) 0 1 (by decide) (by decide) (by decide)
    (by decide) ⟨(1, 0), by decide, by decide, by decide, by decide, by decide,
      by decide, by decide⟩

end SnakeGame
